/-
Verification of the serverstats counter-delta telemetry engine.

This file gives a shallow embedding, in Lean 4, of the delta and
aggregation logic of the serverstats_grab tools (capture, playback and
analysis front ends), translated from the Rust sources:

  * serverstats_grab-v3/src/main.rs        (gather, playback_disk,
                                            playback_cpu, playback_net,
                                            DiskStat::from_csv_fields)
  * serverstats_grab-v3-rhel7/src/analyze.rs  (analyze, parse_disk_from_fields,
                                            get_disk_metrics_map, mean, max)
  * serverstats_grab-v3-rhel7/src/mpath.rs (report_mpath_stats)

Modelling conventions:
  * Rust u64 and u32 counters are modelled as Nat.  Where the source uses
    u64 saturating_sub, we use Nat subtraction (which is truncated, hence
    exactly saturating).  Where the source uses the plain "-" operator on
    u64 (the CPU jiffy deltas), we use wrapping subtraction modulo 2^64,
    which is the release-mode semantics of Rust integer subtraction
    (debug builds panic on the same inputs instead).
  * f64 arithmetic on derived rates is modelled exactly over the
    rationals.  Every claim checked here concerns the formulas, guards
    and control flow of the computation, not floating-point rounding.
  * The line-oriented CSV framing (splitting a line on commas) is out of
    scope per the specification; a persisted field is modelled as the
    list of ASCII codes of its characters.
-/
import Mathlib

namespace ServerStats

/-- Rust u64 saturating subtraction.  Nat subtraction is truncated, so it
is exactly saturating on the embedded counter values. -/
def satSub (a b : Nat) : Nat := a - b

/-- Rust release-mode u64 subtraction: wraps modulo 2^64.  For a b < 2^64
this is the value of the plain "-" operator used by the CPU delta code. -/
def wrapSub64 (a b : Nat) : Nat := (2 ^ 64 + a - b) % 2 ^ 64

/-- Rust release-mode u64 addition: wraps modulo 2^64. -/
def wrapAdd64 (a b : Nat) : Nat := (a + b) % 2 ^ 64

/-- One sample of /proc/diskstats counters for one block device
(struct DiskStat, serverstats_grab-v3/src/main.rs).  The device name is
kept as the list of ASCII codes of its characters. -/
structure DiskStat where
  major : Nat
  minor : Nat
  name : List Nat
  reads : Nat
  reads_merged : Nat
  sectors_read : Nat
  read_time_ms : Nat
  writes : Nat
  writes_merged : Nat
  sectors_written : Nat
  write_time_ms : Nat
  io_in_progress : Nat
  io_time_ms : Nat
  weighted_io_time_ms : Nat
  discards : Nat
  discards_merged : Nat
  sectors_discarded : Nat
  discard_time_ms : Nat
  deriving Repr, DecidableEq

/-- Per-interval computed disk metrics (struct IntervalDiskMetrics,
analyze.rs).  The f64 fields are modelled as exact rationals. -/
structure IntervalDiskMetrics where
  ts : Nat
  rps : ℚ
  wps : ℚ
  io_sec : ℚ
  rd_kbs : ℚ
  wr_kbs : ℚ
  kb_sec : ℚ
  avg_queue_depth : ℚ
  qlen : ℚ
  svctim : ℚ
  await_rd : ℚ
  await_wr : ℚ
  discards_s : ℚ
  discards_merged_s : ℚ
  sectors_discarded_s : ℚ
  discard_kbs : ℚ
  await_discard_ms : ℚ
  deriving Repr, DecidableEq

/-- The disk interval computation of analyze (analyze.rs lines 203-267),
for one (prior, current) snapshot pair, given dt = ts - last_ts > 0.
Every counter delta uses saturating subtraction, ratios guarded by a
zero test on the denominator evaluate to 0. -/
def computeDiskMetric (last_stat : DiskStat) (ts : Nat) (stat : DiskStat)
    (dt : Nat) : IntervalDiskMetrics :=
  let d_reads := satSub stat.reads last_stat.reads
  let d_writes := satSub stat.writes last_stat.writes
  let d_sectors_read := satSub stat.sectors_read last_stat.sectors_read
  let d_sectors_written := satSub stat.sectors_written last_stat.sectors_written
  let delta_weighted_io_time_ms :=
    satSub stat.weighted_io_time_ms last_stat.weighted_io_time_ms
  let avg_queue_depth : ℚ := (delta_weighted_io_time_ms : ℚ) / ((dt : ℚ) * 1000)
  let delta_io_time_ms := satSub stat.io_time_ms last_stat.io_time_ms
  let qlen : ℚ :=
    if delta_io_time_ms > 0 then
      (delta_weighted_io_time_ms : ℚ) / (delta_io_time_ms : ℚ)
    else 0
  let total_ios := d_reads + d_writes
  let svctim : ℚ :=
    if total_ios > 0 then (delta_io_time_ms : ℚ) / (total_ios : ℚ) else 0
  let rps : ℚ := (d_reads : ℚ) / (dt : ℚ)
  let wps : ℚ := (d_writes : ℚ) / (dt : ℚ)
  let io_sec := rps + wps
  let rd_kbs : ℚ := (d_sectors_read : ℚ) * 512 / 1024 / (dt : ℚ)
  let wr_kbs : ℚ := (d_sectors_written : ℚ) * 512 / 1024 / (dt : ℚ)
  let kb_sec := rd_kbs + wr_kbs
  let await_read_ms : ℚ :=
    if d_reads > 0 then
      (satSub stat.read_time_ms last_stat.read_time_ms : ℚ) / (d_reads : ℚ)
    else 0
  let await_write_ms : ℚ :=
    if d_writes > 0 then
      (satSub stat.write_time_ms last_stat.write_time_ms : ℚ) / (d_writes : ℚ)
    else 0
  let d_discards := satSub stat.discards last_stat.discards
  let d_discards_merged := satSub stat.discards_merged last_stat.discards_merged
  let d_sectors_discarded := satSub stat.sectors_discarded last_stat.sectors_discarded
  let d_discard_time_ms := satSub stat.discard_time_ms last_stat.discard_time_ms
  let sectors_discarded_s : ℚ := (d_sectors_discarded : ℚ) / (dt : ℚ)
  let discards_s : ℚ := (d_discards : ℚ) / (dt : ℚ)
  let discards_merged_s : ℚ := (d_discards_merged : ℚ) / (dt : ℚ)
  let discard_kbs : ℚ := (d_sectors_discarded : ℚ) * (1 / 2) / (dt : ℚ)
  let await_discard_ms : ℚ :=
    if d_discards > 0 then (d_discard_time_ms : ℚ) / (d_discards : ℚ) else 0
  { ts := ts
    rps := rps
    wps := wps
    io_sec := io_sec
    rd_kbs := rd_kbs
    wr_kbs := wr_kbs
    kb_sec := kb_sec
    avg_queue_depth := avg_queue_depth
    qlen := qlen
    svctim := svctim
    await_rd := await_read_ms
    await_wr := await_write_ms
    discards_s := discards_s
    discards_merged_s := discards_merged_s
    sectors_discarded_s := sectors_discarded_s
    discard_kbs := discard_kbs
    await_discard_ms := await_discard_ms }

/-- One iteration of the per-device loop of analyze (analyze.rs lines
201-269): given the stored prior snapshot and the next row, returns the
new stored snapshot and the emitted metric, if any.  dt is computed with
saturating subtraction and a zero dt skips the interval while the stored
snapshot still advances. -/
def analyzeDiskStep (prev : Option (Nat × DiskStat)) (ts : Nat)
    (stat : DiskStat) : Option (Nat × DiskStat) × Option IntervalDiskMetrics :=
  match prev with
  | none => (some (ts, stat), none)
  | some (last_ts, last_stat) =>
    let dt := satSub ts last_ts
    if dt = 0 then (some (ts, stat), none)
    else (some (ts, stat), some (computeDiskMetric last_stat ts stat dt))

/-- The per-device interval list built by analyze from the ordered rows of
one device, threading the stored prior snapshot through analyzeDiskStep. -/
def diskIntervalsAux (prev : Option (Nat × DiskStat)) :
    List (Nat × DiskStat) → List IntervalDiskMetrics
  | [] => []
  | (ts, stat) :: rest =>
    let r := analyzeDiskStep prev ts stat
    match r.2 with
    | none => diskIntervalsAux r.1 rest
    | some m => m :: diskIntervalsAux r.1 rest

/-- Interval metrics of one device over its full row list (analyze.rs,
the body of the per-(dev, rows) loop building out). -/
def diskIntervals (rows : List (Nat × DiskStat)) : List IntervalDiskMetrics :=
  diskIntervalsAux none rows

/-- One sample of /proc/net/dev counters for one interface (struct
NetStat, analyze.rs). -/
structure NetStat where
  rx_bytes : Nat
  rx_pkts : Nat
  rx_errs : Nat
  rx_drop : Nat
  tx_bytes : Nat
  tx_pkts : Nat
  tx_errs : Nat
  tx_drop : Nat
  deriving Repr, DecidableEq

/-- Per-interval computed net metrics (struct IntervalNetMetrics,
analyze.rs), modelled as exact rationals. -/
structure IntervalNetMetrics where
  ts : Nat
  rx_bytes : ℚ
  tx_bytes : ℚ
  rx_pkts : ℚ
  tx_pkts : ℚ
  rx_errs : ℚ
  tx_errs : ℚ
  rx_drop : ℚ
  tx_drop : ℚ
  deriving Repr, DecidableEq

/-- The net interval computation of analyze (analyze.rs lines 331-341):
all eight rates are saturating deltas divided by dt. -/
def computeNetMetric (last_stat : NetStat) (ts : Nat) (stat : NetStat)
    (dt : Nat) : IntervalNetMetrics :=
  { ts := ts
    rx_bytes := (satSub stat.rx_bytes last_stat.rx_bytes : ℚ) / (dt : ℚ)
    tx_bytes := (satSub stat.tx_bytes last_stat.tx_bytes : ℚ) / (dt : ℚ)
    rx_pkts := (satSub stat.rx_pkts last_stat.rx_pkts : ℚ) / (dt : ℚ)
    tx_pkts := (satSub stat.tx_pkts last_stat.tx_pkts : ℚ) / (dt : ℚ)
    rx_errs := (satSub stat.rx_errs last_stat.rx_errs : ℚ) / (dt : ℚ)
    tx_errs := (satSub stat.tx_errs last_stat.tx_errs : ℚ) / (dt : ℚ)
    rx_drop := (satSub stat.rx_drop last_stat.rx_drop : ℚ) / (dt : ℚ)
    tx_drop := (satSub stat.tx_drop last_stat.tx_drop : ℚ) / (dt : ℚ) }

/-- One iteration of the per-interface loop of analyze (analyze.rs lines
327-344): zero dt skips the interval, the stored snapshot always
advances to the current one. -/
def analyzeNetStep (prev : Option (Nat × NetStat)) (ts : Nat)
    (stat : NetStat) : Option (Nat × NetStat) × Option IntervalNetMetrics :=
  match prev with
  | none => (some (ts, stat), none)
  | some (last_ts, last_stat) =>
    let dt := satSub ts last_ts
    if dt = 0 then (some (ts, stat), none)
    else (some (ts, stat), some (computeNetMetric last_stat ts stat dt))

/-- The per-interface interval list built by analyze from the ordered
rows of one interface. -/
def netIntervalsAux (prev : Option (Nat × NetStat)) :
    List (Nat × NetStat) → List IntervalNetMetrics
  | [] => []
  | (ts, stat) :: rest =>
    let r := analyzeNetStep prev ts stat
    match r.2 with
    | none => netIntervalsAux r.1 rest
    | some m => m :: netIntervalsAux r.1 rest

/-- Interval metrics of one interface over its full row list. -/
def netIntervals (rows : List (Nat × NetStat)) : List IntervalNetMetrics :=
  netIntervalsAux none rows

/-- Per-interval CPU utilization summary (struct CpuMetrics, analyze.rs),
with the f64 percentages modelled as exact rationals. -/
structure CpuMetrics where
  ts : Nat
  user : ℚ
  sys : ℚ
  idle : ℚ
  iowait : ℚ
  guest : ℚ
  running : Option Nat
  blocked : Option Nat
  deriving Repr, DecidableEq

/-- One parsed CPU record of the analysis pass: timestamp, the full list
of numeric fields of the line (jiffy counters followed by the trailing
running and blocked gauges), and the last two values picked out as
running and blocked (analyze.rs lines 141-150). -/
structure CpuRow where
  ts : Nat
  vals : List Nat
  running : Option Nat
  blocked : Option Nat
  deriving Repr, DecidableEq

/-- The total delta of the analysis CPU loop (analyze.rs line 280): the
element-wise plain u64 subtraction of the previous value list from the
current one, summed with u64 addition.  Both operations wrap modulo
2^64 in release builds; nothing here saturates. -/
def cpuTotalDelta (vals last_vals : List Nat) : Nat :=
  (List.zipWith wrapSub64 vals last_vals).foldl wrapAdd64 0

/-- One iteration of the CPU loop of analyze (analyze.rs lines 278-299).
There is no dt guard at all: the only skip is total = 0.  The individual
field deltas use plain u64 subtraction (wrapping), and the denominator
total sums the deltas of every parsed field of the line, including the
trailing running and blocked gauges. -/
def analyzeCpuStep (prev : Option CpuRow) (row : CpuRow) :
    Option CpuRow × Option CpuMetrics :=
  match prev with
  | none => (some row, none)
  | some last =>
    let total := cpuTotalDelta row.vals last.vals
    if total = 0 then (some row, none)
    else
      let pct := fun i =>
        (wrapSub64 (row.vals.getD i 0) (last.vals.getD i 0) : ℚ)
          / (total : ℚ) * 100
      let user := pct 0
      let nice := pct 1
      (some row, some
        { ts := row.ts
          user := user + nice
          sys := pct 2
          idle := pct 3
          iowait := pct 4
          guest := pct 8
          running := row.running
          blocked := row.blocked })

/-- The CPU metric list built by analyze from the ordered CPU records. -/
def analyzeCpuMetricsAux (prev : Option CpuRow) :
    List CpuRow → List CpuMetrics
  | [] => []
  | row :: rest =>
    let r := analyzeCpuStep prev row
    match r.2 with
    | none => analyzeCpuMetricsAux r.1 rest
    | some m => m :: analyzeCpuMetricsAux r.1 rest

/-- CPU metrics over the whole capture (analyze.rs lines 276-300). -/
def analyzeCpuMetrics (rows : List CpuRow) : List CpuMetrics :=
  analyzeCpuMetricsAux none rows

/-- One printed row of playback_cpu (main.rs lines 491-507): the
percentage columns, modelled as exact rationals, plus the pass-through
gauges.  Note that User and Nice are separate columns here. -/
structure PlaybackCpuRow where
  ts : Nat
  dt : Nat
  user : ℚ
  nice : ℚ
  sys : ℚ
  idle : ℚ
  iowait : ℚ
  guest : ℚ
  running : Option Nat
  blocked : Option Nat
  deriving Repr, DecidableEq

/-- One parsed CPU record of playback_cpu (main.rs lines 452-463): the
eight jiffy fields user..steal, the guest field, and the trailing
running and blocked gauges. -/
structure PlayCpuRec where
  ts : Nat
  vals : List Nat
  guest : Nat
  running : Option Nat
  blocked : Option Nat
  deriving Repr, DecidableEq

/-- One iteration of the playback_cpu loop (main.rs lines 466-511).  The
state is (last_ts, last_vals, last_guest).  A zero dt or a zero total
skips the interval with the state still advancing.  The denominator is
the plain-subtraction delta sum of the eight jiffy fields plus the guest
delta; running and blocked are not part of it.  Only the guest
percentage uses saturating subtraction; the other deltas wrap. -/
def playbackCpuStep (prev : Option (Nat × List Nat × Nat))
    (rec : PlayCpuRec) :
    Option (Nat × List Nat × Nat) × Option PlaybackCpuRow :=
  match prev with
  | none => (some (rec.ts, rec.vals, rec.guest), none)
  | some (last_ts, last_vals, last_guest) =>
    let dt := satSub rec.ts last_ts
    if dt = 0 then (some (rec.ts, rec.vals, rec.guest), none)
    else
      let total_vals_diff := (List.zipWith wrapSub64 rec.vals last_vals).foldl wrapAdd64 0
      let total := wrapAdd64 total_vals_diff (wrapSub64 rec.guest last_guest)
      if total = 0 then (some (rec.ts, rec.vals, rec.guest), none)
      else
        let total_inverse : ℚ := 100 / (total : ℚ)
        let pct := fun i =>
          (wrapSub64 (rec.vals.getD i 0) (last_vals.getD i 0) : ℚ) * total_inverse
        (some (rec.ts, rec.vals, rec.guest), some
          { ts := rec.ts
            dt := dt
            user := pct 0
            nice := pct 1
            sys := pct 2
            idle := pct 3
            iowait := pct 4
            guest := (satSub rec.guest last_guest : ℚ) * total_inverse
            running := rec.running
            blocked := rec.blocked })

/-- One printed row of playback_disk (main.rs lines 404-413): the delta
and rate columns, f64 columns as exact rationals. -/
structure PlaybackDiskRow where
  ts : Nat
  dt : Nat
  d_reads : Nat
  d_reads_merged : Nat
  d_writes : Nat
  d_writes_merged : Nat
  avg_queue_depth : ℚ
  qlen : ℚ
  r_s : ℚ
  w_s : ℚ
  rd_kbs : ℚ
  wr_kbs : ℚ
  svctim : ℚ
  await_read_ms : ℚ
  await_write_ms : ℚ
  d_discards : Nat
  d_discards_merged : Nat
  d_sectors_discarded : Nat
  discard_kbs : ℚ
  await_discard_ms : ℚ
  deriving Repr, DecidableEq

/-- The playback_disk per-interval computation (main.rs lines 332-377),
for dt > 0.  Counter deltas are saturating; guarded ratios fall back
to 0. -/
def computePlaybackDiskRow (last_stat : DiskStat) (ts : Nat)
    (stat : DiskStat) (dt : Nat) : PlaybackDiskRow :=
  let d_reads := satSub stat.reads last_stat.reads
  let d_reads_merged := satSub stat.reads_merged last_stat.reads_merged
  let d_writes := satSub stat.writes last_stat.writes
  let d_writes_merged := satSub stat.writes_merged last_stat.writes_merged
  let d_sectors_written := satSub stat.sectors_written last_stat.sectors_written
  let d_sectors_read := satSub stat.sectors_read last_stat.sectors_read
  let delta_weighted_io_time_ms :=
    satSub stat.weighted_io_time_ms last_stat.weighted_io_time_ms
  let avg_queue_depth : ℚ := (delta_weighted_io_time_ms : ℚ) / ((dt : ℚ) * 1000)
  let delta_io_time_ms := satSub stat.io_time_ms last_stat.io_time_ms
  let d_discards := satSub stat.discards last_stat.discards
  let d_discards_merged := satSub stat.discards_merged last_stat.discards_merged
  let d_sectors_discarded := satSub stat.sectors_discarded last_stat.sectors_discarded
  let d_discard_ms := satSub stat.discard_time_ms last_stat.discard_time_ms
  let qlen : ℚ :=
    if delta_io_time_ms > 0 then
      (delta_weighted_io_time_ms : ℚ) / (delta_io_time_ms : ℚ)
    else 0
  let r_s : ℚ := (d_reads : ℚ) / (dt : ℚ)
  let w_s : ℚ := (d_writes : ℚ) / (dt : ℚ)
  let rd_sec_s : ℚ := (d_sectors_read : ℚ) / (dt : ℚ)
  let wr_sec_s : ℚ := (d_sectors_written : ℚ) / (dt : ℚ)
  let rd_kbs := rd_sec_s * 512 / 1024
  let wr_kbs := wr_sec_s * 512 / 1024
  let await_read_ms : ℚ :=
    if d_reads > 0 then
      (satSub stat.read_time_ms last_stat.read_time_ms : ℚ) / (d_reads : ℚ)
    else 0
  let await_write_ms : ℚ :=
    if d_writes > 0 then
      (satSub stat.write_time_ms last_stat.write_time_ms : ℚ) / (d_writes : ℚ)
    else 0
  let total_ios := d_reads + d_writes
  let svctim : ℚ :=
    if total_ios > 0 then (delta_io_time_ms : ℚ) / (total_ios : ℚ) else 0
  let sectors_discarded_s : ℚ := (d_sectors_discarded : ℚ) / (dt : ℚ)
  let discard_kbs := sectors_discarded_s * 512 / 1024
  let await_discard_ms : ℚ :=
    if d_discards > 0 then (d_discard_ms : ℚ) / (d_discards : ℚ) else 0
  { ts := ts
    dt := dt
    d_reads := d_reads
    d_reads_merged := d_reads_merged
    d_writes := d_writes
    d_writes_merged := d_writes_merged
    avg_queue_depth := avg_queue_depth
    qlen := qlen
    r_s := r_s
    w_s := w_s
    rd_kbs := rd_kbs
    wr_kbs := wr_kbs
    svctim := svctim
    await_read_ms := await_read_ms
    await_write_ms := await_write_ms
    d_discards := d_discards
    d_discards_merged := d_discards_merged
    d_sectors_discarded := d_sectors_discarded
    discard_kbs := discard_kbs
    await_discard_ms := await_discard_ms }

/-- The decimal rendering of a counter by the capture writer (the Rust
Display of an unsigned integer): most-significant-first digit characters,
as ASCII codes; 0 renders as the single character 0. -/
def formatNat (n : Nat) : List Nat :=
  (if n = 0 then [0] else (Nat.digits 10 n).reverse).map (· + 48)

/-- The key of the playback_disk store (main.rs line 330):
format major-minor-name, as the list of ASCII codes. -/
def diskKey (stat : DiskStat) : List Nat :=
  formatNat stat.major ++ [45] ++ formatNat stat.minor ++ [45] ++ stat.name

/-- The playback_disk per-entity store: device key to the most recent
(ts, snapshot) pair, modelled as an association list standing for the
HashMap of main.rs line 319. -/
abbrev DiskStore := List (List Nat × Nat × DiskStat)

/-- Store lookup (HashMap::get). -/
def storeLookup (st : DiskStore) (k : List Nat) : Option (Nat × DiskStat) :=
  List.lookup k st

/-- Store insert-or-replace (HashMap::insert). -/
def storeInsert (st : DiskStore) (k : List Nat) (v : Nat × DiskStat) : DiskStore :=
  match st with
  | [] => [(k, v)]
  | (k', v') :: rest =>
    if k' = k then (k, v) :: rest else (k', v') :: storeInsert rest k v

/-- One iteration of the playback_disk loop for a parsed DISK record
(main.rs lines 329-416, with no time window options given).  When a
prior snapshot exists for the key and dt = 0, the source hits a continue
statement before the prev.insert call, so the store is left unchanged:
the current snapshot does not replace the stored one. -/
def playbackDiskLine (st : DiskStore) (ts : Nat) (stat : DiskStat) :
    DiskStore × Option PlaybackDiskRow :=
  let key := diskKey stat
  match storeLookup st key with
  | none => (storeInsert st key (ts, stat), none)
  | some (last_ts, last_stat) =>
    let dt := satSub ts last_ts
    if dt = 0 then (st, none)
    else (storeInsert st key (ts, stat),
          some (computePlaybackDiskRow last_stat ts stat dt))

/-- A digit character predicate on ASCII codes (char::is_ascii_digit as
used by the integer parser). -/
def isDigitCode (c : Nat) : Prop := 48 ≤ c ∧ c ≤ 57

instance (c : Nat) : Decidable (isDigitCode c) := by
  unfold isDigitCode; infer_instance

/-- The Rust unsigned-integer parser str::parse on a field given as
ASCII codes: succeeds on a nonempty all-digit string, yielding its
decimal value. -/
def parseNatCore (f : List Nat) : Option Nat :=
  if f ≠ [] ∧ ∀ c ∈ f, isDigitCode c then
    some (Nat.ofDigits 10 (f.map (· - 48)).reverse)
  else none

/-- str::parse with the u64 range check (values of 2^64 or more are
rejected as overflow). -/
def parseU64 (f : List Nat) : Option Nat :=
  (parseNatCore f).bind fun n => if n < 2 ^ 64 then some n else none

/-- str::parse with the u32 range check. -/
def parseU32 (f : List Nat) : Option Nat :=
  (parseNatCore f).bind fun n => if n < 2 ^ 32 then some n else none

/-- The shared CSV disk-record parser: DiskStat::from_csv_fields
(main.rs lines 131-153) and the textually identical
parse_disk_from_fields (analyze.rs lines 469-491).  The fields slice
holds everything after the DISK tag and the timestamp.  Fewer than 18
fields: the record is rejected. -/
def parse_disk_from_fields (fields : List (List Nat)) : Option DiskStat :=
  if fields.length < 18 then none
  else do
    let major ← parseU32 (fields.getD 0 [])
    let minor ← parseU32 (fields.getD 1 [])
    let name := fields.getD 2 []
    let reads ← parseU64 (fields.getD 3 [])
    let reads_merged ← parseU64 (fields.getD 4 [])
    let sectors_read ← parseU64 (fields.getD 5 [])
    let read_time_ms ← parseU64 (fields.getD 6 [])
    let writes ← parseU64 (fields.getD 7 [])
    let writes_merged ← parseU64 (fields.getD 8 [])
    let sectors_written ← parseU64 (fields.getD 9 [])
    let write_time_ms ← parseU64 (fields.getD 10 [])
    let io_in_progress ← parseU64 (fields.getD 11 [])
    let io_time_ms ← parseU64 (fields.getD 12 [])
    let weighted_io_time_ms ← parseU64 (fields.getD 13 [])
    let discards ← parseU64 (fields.getD 14 [])
    let discards_merged ← parseU64 (fields.getD 15 [])
    let sectors_discarded ← parseU64 (fields.getD 16 [])
    let discard_time_ms ← parseU64 (fields.getD 17 [])
    pure { major := major, minor := minor, name := name, reads := reads,
           reads_merged := reads_merged, sectors_read := sectors_read,
           read_time_ms := read_time_ms, writes := writes,
           writes_merged := writes_merged, sectors_written := sectors_written,
           write_time_ms := write_time_ms, io_in_progress := io_in_progress,
           io_time_ms := io_time_ms,
           weighted_io_time_ms := weighted_io_time_ms, discards := discards,
           discards_merged := discards_merged,
           sectors_discarded := sectors_discarded,
           discard_time_ms := discard_time_ms }

/-- The field list written for one device by the capture writer (gather,
main.rs lines 179-201): everything after the DISK tag and the timestamp,
each counter rendered in decimal, the name passed through. -/
def gatherDiskFields (stat : DiskStat) : List (List Nat) :=
  [formatNat stat.major, formatNat stat.minor, stat.name,
   formatNat stat.reads, formatNat stat.reads_merged,
   formatNat stat.sectors_read, formatNat stat.read_time_ms,
   formatNat stat.writes, formatNat stat.writes_merged,
   formatNat stat.sectors_written, formatNat stat.write_time_ms,
   formatNat stat.io_in_progress, formatNat stat.io_time_ms,
   formatNat stat.weighted_io_time_ms, formatNat stat.discards,
   formatNat stat.discards_merged, formatNat stat.sectors_discarded,
   formatNat stat.discard_time_ms]

/-- Well-formedness of a captured disk snapshot: counters in u64 range
(major and minor in u32 range), and a device name free of the comma
separator, as every /proc/diskstats name is. -/
def DiskStat.WF (s : DiskStat) : Prop :=
  s.major < 2 ^ 32 ∧ s.minor < 2 ^ 32 ∧
  s.reads < 2 ^ 64 ∧ s.reads_merged < 2 ^ 64 ∧
  s.sectors_read < 2 ^ 64 ∧ s.read_time_ms < 2 ^ 64 ∧
  s.writes < 2 ^ 64 ∧ s.writes_merged < 2 ^ 64 ∧
  s.sectors_written < 2 ^ 64 ∧ s.write_time_ms < 2 ^ 64 ∧
  s.io_in_progress < 2 ^ 64 ∧ s.io_time_ms < 2 ^ 64 ∧
  s.weighted_io_time_ms < 2 ^ 64 ∧ s.discards < 2 ^ 64 ∧
  s.discards_merged < 2 ^ 64 ∧ s.sectors_discarded < 2 ^ 64 ∧
  s.discard_time_ms < 2 ^ 64 ∧ 44 ∉ s.name

instance (s : DiskStat) : Decidable s.WF := by
  unfold DiskStat.WF; infer_instance

/-- The disk metrics map of analyze (analyze.rs lines 197-274): a device
is inserted with its interval list only when that list is nonempty. -/
def diskMetricsMap (perDevice : List (List Nat × List (Nat × DiskStat))) :
    List (List Nat × List IntervalDiskMetrics) :=
  perDevice.foldr
    (fun p acc =>
      if diskIntervals p.2 = [] then acc else (p.1, diskIntervals p.2) :: acc) []

/-- The net metrics map of analyze (analyze.rs lines 323-348): an
interface is inserted only when its interval list is nonempty. -/
def netMetricsMap (perNet : List (List Nat × List (Nat × NetStat))) :
    List (List Nat × List IntervalNetMetrics) :=
  perNet.foldr
    (fun p acc =>
      if netIntervals p.2 = [] then acc else (p.1, netIntervals p.2) :: acc) []

/-- The mean helper of the summarizer (fn mean, analyze.rs lines
1196-1203): sum of the accessor over the series divided by its length,
0 for an empty series. -/
def mean (data : List IntervalDiskMetrics) (f : IntervalDiskMetrics → ℚ) : ℚ :=
  let sum := (data.map f).sum
  let count : ℚ := (data.length : ℚ)
  if count = 0 then 0 else sum / count

/-- The max helper of the summarizer (fn max, analyze.rs lines
1206-1211): a fold of the binary maximum of the accessor values,
starting from 0. -/
def maxPeak (data : List IntervalDiskMetrics) (f : IntervalDiskMetrics → ℚ) : ℚ :=
  (data.map f).foldl (fun acc v => Max.max acc v) 0

/-- One summary entry: device name, series average, series peak
(the (String, f64, f64) triples of analyze.rs line 413). -/
abbrev SummaryEntry := List Nat × ℚ × ℚ

/-- The per-metric summary rows (analyze.rs lines 414-420): one entry
per device of the metrics map, carrying the mean and the max of the
chosen accessor over the full series. -/
def metricsSummary (dm : List (List Nat × List IntervalDiskMetrics))
    (f : IntervalDiskMetrics → ℚ) : List SummaryEntry :=
  dm.map fun p => (p.1, mean p.2 f, maxPeak p.2 f)

/-- The ranking by average (analyze.rs lines 425-426, 442): a stable
sort with the comparator b.avg versus a.avg, hence descending by
average, then the first 50 rows. -/
def top50ByAvg (entries : List SummaryEntry) : List SummaryEntry :=
  (entries.mergeSort (fun a b => decide (b.2.1 ≤ a.2.1))).take 50

/-- The ranking by peak (analyze.rs lines 427-428, 449): a stable sort
descending by peak, then the first 50 rows. -/
def top50ByPeak (entries : List SummaryEntry) : List SummaryEntry :=
  (entries.mergeSort (fun a b => decide (b.2.2 ≤ a.2.2))).take 50

/-- The reduced disk interval computation of get_disk_metrics_map
(analyze.rs lines 1242-1273), used by the multipath reporter: the rate
and queue fields are computed as in analyze, the service-time, await and
discard fields are filled with 0. -/
def computeDiskMetricSummary (last_stat : DiskStat) (ts : Nat)
    (stat : DiskStat) (dt : Nat) : IntervalDiskMetrics :=
  let d_reads := satSub stat.reads last_stat.reads
  let d_writes := satSub stat.writes last_stat.writes
  let d_sectors_read := satSub stat.sectors_read last_stat.sectors_read
  let d_sectors_written := satSub stat.sectors_written last_stat.sectors_written
  let delta_weighted_io_time_ms :=
    satSub stat.weighted_io_time_ms last_stat.weighted_io_time_ms
  let avg_queue_depth : ℚ := (delta_weighted_io_time_ms : ℚ) / ((dt : ℚ) * 1000)
  let delta_io_time_ms := satSub stat.io_time_ms last_stat.io_time_ms
  let qlen : ℚ :=
    if delta_io_time_ms > 0 then
      (delta_weighted_io_time_ms : ℚ) / (delta_io_time_ms : ℚ)
    else 0
  let rps : ℚ := (d_reads : ℚ) / (dt : ℚ)
  let wps : ℚ := (d_writes : ℚ) / (dt : ℚ)
  let rd_kbs : ℚ := (d_sectors_read : ℚ) * 512 / 1024 / (dt : ℚ)
  let wr_kbs : ℚ := (d_sectors_written : ℚ) * 512 / 1024 / (dt : ℚ)
  { ts := ts
    rps := rps
    wps := wps
    io_sec := rps + wps
    rd_kbs := rd_kbs
    wr_kbs := wr_kbs
    kb_sec := rd_kbs + wr_kbs
    avg_queue_depth := avg_queue_depth
    qlen := qlen
    svctim := 0
    await_rd := 0
    await_wr := 0
    discards_s := 0
    discards_merged_s := 0
    sectors_discarded_s := 0
    discard_kbs := 0
    await_discard_ms := 0 }

/-- One iteration of the per-device loop of get_disk_metrics_map
(analyze.rs lines 1242-1275): same store discipline as analyze. -/
def summaryDiskStep (prev : Option (Nat × DiskStat)) (ts : Nat)
    (stat : DiskStat) : Option (Nat × DiskStat) × Option IntervalDiskMetrics :=
  match prev with
  | none => (some (ts, stat), none)
  | some (last_ts, last_stat) =>
    let dt := satSub ts last_ts
    if dt = 0 then (some (ts, stat), none)
    else (some (ts, stat), some (computeDiskMetricSummary last_stat ts stat dt))

/-- The interval list of one device in get_disk_metrics_map. -/
def summaryDiskIntervalsAux (prev : Option (Nat × DiskStat)) :
    List (Nat × DiskStat) → List IntervalDiskMetrics
  | [] => []
  | (ts, stat) :: rest =>
    let r := summaryDiskStep prev ts stat
    match r.2 with
    | none => summaryDiskIntervalsAux r.1 rest
    | some m => m :: summaryDiskIntervalsAux r.1 rest

/-- The metrics map built by get_disk_metrics_map (analyze.rs lines
1238-1281): a device is inserted only when its interval list is
nonempty. -/
def getDiskMetricsMap (perDevice : List (List Nat × List (Nat × DiskStat))) :
    List (List Nat × List IntervalDiskMetrics) :=
  perDevice.foldr
    (fun p acc =>
      if summaryDiskIntervalsAux none p.2 = [] then acc
      else (p.1, summaryDiskIntervalsAux none p.2) :: acc) []

/-- The per-path mean IOPS of report_mpath_stats (mpath.rs lines
109-111): the sum of rps + wps over the series divided by
max(length, 1). -/
def pathAvgIops (series : List IntervalDiskMetrics) : ℚ :=
  (series.map (fun m => m.rps + m.wps)).sum / ((Max.max series.length 1 : Nat) : ℚ)

/-- The per-path mean KB/s of report_mpath_stats (mpath.rs lines
112-114). -/
def pathAvgKbs (series : List IntervalDiskMetrics) : ℚ :=
  (series.map (fun m => m.rd_kbs + m.wr_kbs)).sum / ((Max.max series.length 1 : Nat) : ℚ)

/-- The per-path averages of one path (mpath.rs lines 107-118): a path
absent from the metrics map counts as (0, 0). -/
def pathAverages (dm : List (List Nat × List IntervalDiskMetrics))
    (dev_name : List Nat) : ℚ × ℚ :=
  match List.lookup dev_name dm with
  | some series => (pathAvgIops series, pathAvgKbs series)
  | none => (0, 0)

/-- The per-group accumulation of report_mpath_stats (mpath.rs lines
101-125): walking the group paths in order, a path is appended to
per_path and added into the group totals only when its mean IOPS or its
mean KB/s is positive. -/
def mpathGroupStats (dm : List (List Nat × List IntervalDiskMetrics))
    (paths : List (List Nat)) : List (List Nat × ℚ × ℚ) × ℚ × ℚ :=
  paths.foldl
    (fun acc path =>
      let avgs := pathAverages dm path
      if avgs.1 > 0 ∨ avgs.2 > 0 then
        (acc.1 ++ [(path, avgs.1, avgs.2)], acc.2.1 + avgs.1, acc.2.2 + avgs.2)
      else acc)
    ([], 0, 0)

/-- One reported multipath group (mpath.rs lines 127-184): skipped
entirely (none) when per_path is empty, otherwise the group totals and
the per-path rows (path, mean IOPS, mean KB/s, IOPS share, KB/s share),
each share 100 * mean / total, or 0 when that total is not positive. -/
def reportMpathGroup (dm : List (List Nat × List IntervalDiskMetrics))
    (paths : List (List Nat)) :
    Option (ℚ × ℚ × List (List Nat × ℚ × ℚ × ℚ × ℚ)) :=
  let s := mpathGroupStats dm paths
  let per_path := s.1
  let mpath_total_iops := s.2.1
  let mpath_total_kbs := s.2.2
  if per_path = [] then none
  else some (mpath_total_iops, mpath_total_kbs,
    per_path.map fun r =>
      let io_pct : ℚ :=
        if mpath_total_iops > 0 then 100 * r.2.1 / mpath_total_iops else 0
      let kb_pct : ℚ :=
        if mpath_total_kbs > 0 then 100 * r.2.2 / mpath_total_kbs else 0
      (r.1, r.2.1, r.2.2, io_pct, kb_pct))

/-- One printed row of playback_net (main.rs lines 604-619): the eight
saturating deltas, the two KB/s columns and the combined drop column. -/
structure PlaybackNetRow where
  ts : Nat
  drx_bytes : Nat
  dtx_bytes : Nat
  drx_packets : Nat
  dtx_packets : Nat
  drx_errs : Nat
  dtx_errs : Nat
  drx_drop : Nat
  dtx_drop : Nat
  rx_kbs : ℚ
  tx_kbs : ℚ
  drop_total : Nat
  deriving Repr, DecidableEq

/-- The playback_net per-interface store: interface name to the most
recent (ts, eight counters) pair (main.rs line 576). -/
abbrev NetStore := List (List Nat × Nat × List Nat)

/-- Net store lookup (HashMap::get). -/
def netStoreLookup (st : NetStore) (k : List Nat) : Option (Nat × List Nat) :=
  List.lookup k st

/-- Net store insert-or-replace (HashMap::insert). -/
def netStoreInsert (st : NetStore) (k : List Nat) (v : Nat × List Nat) : NetStore :=
  match st with
  | [] => [(k, v)]
  | (k', v') :: rest =>
    if k' = k then (k, v) :: rest else (k', v') :: netStoreInsert rest k v

/-- One iteration of the playback_net loop for a parsed NET record
(main.rs lines 592-621).  vals holds the eight counters in the order
rx_bytes, tx_bytes, rx_packets, tx_packets, rx_errs, tx_errs, rx_drop,
tx_drop.  As in playback_disk, a zero dt hits a continue statement
before the prev.insert call, leaving the store unchanged. -/
def playbackNetLine (st : NetStore) (ts : Nat) (iface : List Nat)
    (vals : List Nat) : NetStore × Option PlaybackNetRow :=
  match netStoreLookup st iface with
  | none => (netStoreInsert st iface (ts, vals), none)
  | some (last_ts, last_vals) =>
    let dt := satSub ts last_ts
    if dt = 0 then (st, none)
    else
      let d := fun i => satSub (vals.getD i 0) (last_vals.getD i 0)
      (netStoreInsert st iface (ts, vals), some
        { ts := ts
          drx_bytes := d 0
          dtx_bytes := d 1
          drx_packets := d 2
          dtx_packets := d 3
          drx_errs := d 4
          dtx_errs := d 5
          drx_drop := d 6
          dtx_drop := d 7
          rx_kbs := (d 0 : ℚ) / (dt : ℚ) / 1024
          tx_kbs := (d 1 : ℚ) / (dt : ℚ) / 1024
          drop_total := d 6 + d 7 })

/-- An all-zero disk snapshot, used to build concrete test snapshots. -/
def zeroDisk : DiskStat :=
  { major := 0, minor := 0, name := [115, 100, 97], reads := 0,
    reads_merged := 0, sectors_read := 0, read_time_ms := 0, writes := 0,
    writes_merged := 0, sectors_written := 0, write_time_ms := 0,
    io_in_progress := 0, io_time_ms := 0, weighted_io_time_ms := 0,
    discards := 0, discards_merged := 0, sectors_discarded := 0,
    discard_time_ms := 0 }

/-- An all-zero net snapshot, used to build concrete test snapshots. -/
def zeroNet : NetStat :=
  { rx_bytes := 0, rx_pkts := 0, rx_errs := 0, rx_drop := 0, tx_bytes := 0,
    tx_pkts := 0, tx_errs := 0, tx_drop := 0 }

/-- An all-zero interval metric record, used to build concrete series. -/
def zeroMetric : IntervalDiskMetrics :=
  { ts := 0, rps := 0, wps := 0, io_sec := 0, rd_kbs := 0, wr_kbs := 0,
    kb_sec := 0, avg_queue_depth := 0, qlen := 0, svctim := 0, await_rd := 0,
    await_wr := 0, discards_s := 0, discards_merged_s := 0,
    sectors_discarded_s := 0, discard_kbs := 0, await_discard_ms := 0 }

/-- The CPU User% as the specification words describe it (spec section
4.2, CPU): the user and nice deltas (saturating, per the spec edge
policy), each divided by the total delta across the nine time-accounting
jiffy fields user..steal plus guest, times 100, summed.  The trailing
running and blocked gauges are not part of the denominator.  This
definition follows the spec, for comparison against the code. -/
def specCpuUserPercent (last_vals vals : List Nat) : ℚ :=
  let tot := ((List.range 9).map
    (fun i => satSub (vals.getD i 0) (last_vals.getD i 0))).sum
  if tot = 0 then 0
  else ((satSub (vals.getD 0 0) (last_vals.getD 0 0) : ℚ)
          + (satSub (vals.getD 1 0) (last_vals.getD 1 0) : ℚ)) / (tot : ℚ) * 100

-- ==================== Helper lemmas ====================

theorem satSub_eq_zero {a b : Nat} (h : a ≤ b) : satSub a b = 0 :=
  Nat.sub_eq_zero_of_le h

theorem wrapSub64_self (a : Nat) : wrapSub64 a a = 0 := by
  unfold wrapSub64
  rw [Nat.add_sub_cancel, Nat.mod_self]

theorem foldl_wrapAdd64_zeros (l : List Nat) (h : ∀ x ∈ l, x = 0) :
    l.foldl wrapAdd64 0 = 0 := by
  induction l with
  | nil => rfl
  | cons x xs ih =>
    have hx : x = 0 := h x (List.mem_cons_self x xs)
    have : wrapAdd64 0 x = 0 := by
      rw [hx]; rfl
    simp only [List.foldl_cons, this]
    exact ih fun y hy => h y (List.mem_cons_of_mem x hy)

theorem zipWith_wrapSub64_self_foldl (v : List Nat) :
    (List.zipWith wrapSub64 v v).foldl wrapAdd64 0 = 0 := by
  apply foldl_wrapAdd64_zeros
  intro x hx
  rw [List.zipWith_same] at hx
  rcases List.mem_map.mp hx with ⟨a, _, rfl⟩
  exact wrapSub64_self a

theorem cpuTotalDelta_self (v : List Nat) : cpuTotalDelta v v = 0 :=
  zipWith_wrapSub64_self_foldl v

-- ==================== C5 ====================

/-- C5.  The claim states that a disk snapshot with 14-17 fields is still
processed with its discard metrics reported as zero.  The code rejects
it: parse_disk_from_fields (and the identical DiskStat::from_csv_fields)
returns none for every field list shorter than 18, so the snapshot is
skipped entirely.  A concrete 14-field record (all fields the digit 0)
parses to none. -/
theorem shortDiskRecordCounterexample :
    parse_disk_from_fields (List.replicate 14 [48]) = none := by decide

/-- C5 (amended).  Disk records with fewer than 18 fields are rejected
outright by the shared CSV disk parser: the parse yields none and the
line is skipped, so no interval and no discard metrics are produced for
such snapshots. -/
theorem shortDiskRecordRejected (fields : List (List Nat))
    (h : fields.length < 18) : parse_disk_from_fields fields = none := by
  simp [parse_disk_from_fields, h]

/-- Closed witness for shortDiskRecordRejected at a 15-field record. -/
theorem shortDiskRecordRejected_witness :
    (List.replicate 15 [49]).length < 18 ∧
      parse_disk_from_fields (List.replicate 15 [49]) = none :=
  ⟨by decide, shortDiskRecordRejected (List.replicate 15 [49]) (by decide)⟩

-- ==================== C7 ====================

/-- C7.  For every disk snapshot pair processed with dt > 0, the analysis
interval metric satisfies the specified formulas: reads and writes per
second are the saturating count deltas over dt, total IOPS is their sum,
the KB/s figures are the sector deltas times 512 bytes over 1024 over
dt, total KB/s is their sum, and each await is the time delta over the
count delta, 0 when the count delta is 0. -/
theorem diskRateFormulas (last_stat stat : DiskStat) (ts dt : Nat)
    (h : 0 < dt) :
    (computeDiskMetric last_stat ts stat dt).rps
        = (satSub stat.reads last_stat.reads : ℚ) / (dt : ℚ) ∧
    (computeDiskMetric last_stat ts stat dt).wps
        = (satSub stat.writes last_stat.writes : ℚ) / (dt : ℚ) ∧
    (computeDiskMetric last_stat ts stat dt).io_sec
        = (computeDiskMetric last_stat ts stat dt).rps
          + (computeDiskMetric last_stat ts stat dt).wps ∧
    (computeDiskMetric last_stat ts stat dt).rd_kbs
        = (satSub stat.sectors_read last_stat.sectors_read : ℚ)
          * 512 / 1024 / (dt : ℚ) ∧
    (computeDiskMetric last_stat ts stat dt).wr_kbs
        = (satSub stat.sectors_written last_stat.sectors_written : ℚ)
          * 512 / 1024 / (dt : ℚ) ∧
    (computeDiskMetric last_stat ts stat dt).kb_sec
        = (computeDiskMetric last_stat ts stat dt).rd_kbs
          + (computeDiskMetric last_stat ts stat dt).wr_kbs ∧
    (0 < satSub stat.reads last_stat.reads →
      (computeDiskMetric last_stat ts stat dt).await_rd
        = (satSub stat.read_time_ms last_stat.read_time_ms : ℚ)
          / (satSub stat.reads last_stat.reads : ℚ)) ∧
    (satSub stat.reads last_stat.reads = 0 →
      (computeDiskMetric last_stat ts stat dt).await_rd = 0) ∧
    (0 < satSub stat.writes last_stat.writes →
      (computeDiskMetric last_stat ts stat dt).await_wr
        = (satSub stat.write_time_ms last_stat.write_time_ms : ℚ)
          / (satSub stat.writes last_stat.writes : ℚ)) ∧
    (satSub stat.writes last_stat.writes = 0 →
      (computeDiskMetric last_stat ts stat dt).await_wr = 0) := by
  refine ⟨rfl, rfl, rfl, rfl, rfl, rfl, ?_, ?_, ?_, ?_⟩ <;>
    intro hc <;> simp [computeDiskMetric, hc]

/-- Closed witness for diskRateFormulas: the spec scenario, reads 100 to
150 and sectors_read 1000 to 2000 over dt = 10, gives 5 reads per second
and 50 read KB/s. -/
theorem diskRateFormulas_witness :
    (0 < 10) ∧
    (computeDiskMetric { zeroDisk with reads := 100, sectors_read := 1000 }
        10 { zeroDisk with reads := 150, sectors_read := 2000 } 10).rps = 5 ∧
    (computeDiskMetric { zeroDisk with reads := 100, sectors_read := 1000 }
        10 { zeroDisk with reads := 150, sectors_read := 2000 } 10).rd_kbs = 50 := by
  have h := diskRateFormulas
    { zeroDisk with reads := 100, sectors_read := 1000 }
    { zeroDisk with reads := 150, sectors_read := 2000 } 10 10 (by decide)
  refine ⟨by decide, ?_, ?_⟩
  · rw [h.1]; norm_num [satSub, zeroDisk]
  · rw [h.2.2.2.1]; norm_num [satSub, zeroDisk]

-- ==================== C2 ====================

/-- C2.  The claim states that a CPU pair with dt > 0 and all deltas 0
emits a metric whose percentages are all 0.  The code instead skips the
interval: with identical counters at timestamps 0 and 10, the analysis
CPU step emits nothing (and CPU playback likewise emits nothing). -/
theorem identicalCpuCounterexample :
    (0 : Nat) < 10 ∧
    (analyzeCpuStep
        (some { ts := 0, vals := [100, 0, 0, 50, 0, 0, 0, 0, 0, 3, 1],
                running := some 3, blocked := some 1 })
        { ts := 10, vals := [100, 0, 0, 50, 0, 0, 0, 0, 0, 3, 1],
          running := some 3, blocked := some 1 }).2 = none ∧
    (playbackCpuStep (some (0, [100, 0, 0, 50, 0, 0, 0, 0], 7))
        { ts := 10, vals := [100, 0, 0, 50, 0, 0, 0, 0], guest := 7,
          running := some 3, blocked := some 1 }).2 = none := by
  refine ⟨by decide, ?_, ?_⟩
  · simp [analyzeCpuStep, cpuTotalDelta_self]
  · simp [playbackCpuStep, satSub, zipWith_wrapSub64_self_foldl,
      wrapSub64_self, wrapAdd64]

/-- C2 (amended).  A CPU snapshot pair whose counters are all identical
is skipped entirely, in both front ends: no metric is emitted and the
stored previous sample still advances to the current one.  No division
is attempted, so no division error can occur. -/
theorem identicalCpuSkipped :
    (∀ last row : CpuRow, row.vals = last.vals →
      analyzeCpuStep (some last) row = (some row, none)) ∧
    (∀ (lt lg : Nat) (lv : List Nat) (rec : PlayCpuRec),
      rec.vals = lv → rec.guest = lg →
      playbackCpuStep (some (lt, lv, lg)) rec
        = (some (rec.ts, rec.vals, rec.guest), none)) := by
  constructor
  · intro last row h
    simp [analyzeCpuStep, h, cpuTotalDelta_self]
  · intro lt lg lv rec hv hg
    subst hv; subst hg
    unfold playbackCpuStep
    by_cases hdt : satSub rec.ts lt = 0
    · simp [hdt]
    · have htot : wrapAdd64 ((rec.vals.map (fun a => wrapSub64 a a)).foldl wrapAdd64 0)
          (wrapSub64 rec.guest rec.guest) = 0 := by
        have hz := zipWith_wrapSub64_self_foldl rec.vals
        rw [List.zipWith_same] at hz
        rw [hz, wrapSub64_self]
        rfl
      simp [hdt, htot]

/-- Closed witness for identicalCpuSkipped at concrete identical rows. -/
theorem identicalCpuSkipped_witness :
    analyzeCpuStep
        (some { ts := 0, vals := [7, 1, 2, 3, 4, 5, 6, 8, 9, 2, 1],
                running := some 2, blocked := some 1 })
        { ts := 5, vals := [7, 1, 2, 3, 4, 5, 6, 8, 9, 2, 1],
          running := some 2, blocked := some 1 }
      = (some { ts := 5, vals := [7, 1, 2, 3, 4, 5, 6, 8, 9, 2, 1],
                running := some 2, blocked := some 1 }, none) ∧
    playbackCpuStep (some (0, [7, 1, 2, 3, 4, 5, 6, 8], 9))
        { ts := 5, vals := [7, 1, 2, 3, 4, 5, 6, 8], guest := 9,
          running := some 2, blocked := some 1 }
      = (some (5, [7, 1, 2, 3, 4, 5, 6, 8], 9), none) :=
  ⟨identicalCpuSkipped.1 _ _ rfl, identicalCpuSkipped.2 0 9 _ _ rfl rfl⟩

-- ==================== C3 ====================

/-- The stored snapshot of the C3 counterexample. -/
def c3Old : DiskStat := { zeroDisk with reads := 100 }

/-- The duplicate-timestamp snapshot of the C3 counterexample. -/
def c3New : DiskStat := { zeroDisk with reads := 200 }

/-- The playback_disk store holding the prior snapshot at timestamp 10. -/
def c3Store : DiskStore := [(diskKey c3Old, (10, c3Old))]

/-- C3.  The claim states that on a skipped dt = 0 interval the store
still advances in every front end.  In playback_disk the skip happens
via a continue statement placed before the store insert, so the store
keeps the old snapshot: feeding a record with the same timestamp 10 but
different counters leaves the store unchanged, still holding the old
snapshot rather than the current one. -/
theorem dtZeroStoreCounterexample :
    (playbackDiskLine c3Store 10 c3New).1 = c3Store ∧
    (playbackDiskLine c3Store 10 c3New).2 = none ∧
    storeLookup (playbackDiskLine c3Store 10 c3New).1 (diskKey c3New)
      = some (10, c3Old) ∧
    c3Old ≠ c3New := by decide

/-- C3 (amended).  On a dt = 0 interval no metric is emitted anywhere,
but the store discipline differs by front end: the analysis pass (disk
and net) and CPU playback advance the stored snapshot to the current
one, while disk and net playback skip the record before the insert and
leave the store unchanged.  The analysis CPU loop applies no dt guard at
all: whenever its total delta is nonzero it emits a metric even for a
duplicate or reordered timestamp. -/
theorem dtZeroSkipPolicy :
    (∀ (last_ts ts : Nat) (last_stat stat : DiskStat), ts ≤ last_ts →
      analyzeDiskStep (some (last_ts, last_stat)) ts stat
        = (some (ts, stat), none)) ∧
    (∀ (last_ts ts : Nat) (last_stat stat : NetStat), ts ≤ last_ts →
      analyzeNetStep (some (last_ts, last_stat)) ts stat
        = (some (ts, stat), none)) ∧
    (∀ (lt lg : Nat) (lv : List Nat) (rec : PlayCpuRec), rec.ts ≤ lt →
      playbackCpuStep (some (lt, lv, lg)) rec
        = (some (rec.ts, rec.vals, rec.guest), none)) ∧
    (∀ (st : DiskStore) (ts : Nat) (stat : DiskStat)
        (last_ts : Nat) (last_stat : DiskStat),
      storeLookup st (diskKey stat) = some (last_ts, last_stat) →
      ts ≤ last_ts → playbackDiskLine st ts stat = (st, none)) ∧
    (∀ (st : NetStore) (ts : Nat) (iface vals : List Nat)
        (last_ts : Nat) (last_vals : List Nat),
      netStoreLookup st iface = some (last_ts, last_vals) →
      ts ≤ last_ts → playbackNetLine st ts iface vals = (st, none)) ∧
    (∀ last row : CpuRow, cpuTotalDelta row.vals last.vals ≠ 0 →
      ((analyzeCpuStep (some last) row).2).isSome = true) := by
  refine ⟨?_, ?_, ?_, ?_, ?_, ?_⟩
  · intro last_ts ts last_stat stat h
    simp [analyzeDiskStep, satSub_eq_zero h]
  · intro last_ts ts last_stat stat h
    simp [analyzeNetStep, satSub_eq_zero h]
  · intro lt lg lv rec h
    simp [playbackCpuStep, satSub_eq_zero h]
  · intro st ts stat last_ts last_stat hl h
    simp [playbackDiskLine, hl, satSub_eq_zero h]
  · intro st ts iface vals last_ts last_vals hl h
    simp [playbackNetLine, hl, satSub_eq_zero h]
  · intro last row h
    simp [analyzeCpuStep, h]

/-- Closed witness for dtZeroSkipPolicy, with each hypothesis discharged
at concrete reordered or duplicate samples. -/
theorem dtZeroSkipPolicy_witness :
    analyzeDiskStep (some (10, c3Old)) 10 c3New = (some (10, c3New), none) ∧
    analyzeNetStep (some (10, zeroNet)) 9 zeroNet
      = (some (9, zeroNet), none) ∧
    playbackCpuStep (some (10, [1, 2, 3, 4, 5, 6, 7, 8], 9))
        { ts := 10, vals := [2, 2, 3, 4, 5, 6, 7, 8], guest := 9,
          running := some 1, blocked := some 0 }
      = (some (10, [2, 2, 3, 4, 5, 6, 7, 8], 9), none) ∧
    playbackDiskLine c3Store 10 c3New = (c3Store, none) ∧
    playbackNetLine [([101], (10, [1, 2, 3, 4, 5, 6, 7, 8]))] 10 [101]
        [9, 9, 9, 9, 9, 9, 9, 9]
      = ([([101], (10, [1, 2, 3, 4, 5, 6, 7, 8]))], none) ∧
    ((analyzeCpuStep
        (some { ts := 10, vals := [1, 0, 0, 0, 0, 0, 0, 0, 0, 0, 0],
                running := some 0, blocked := some 0 })
        { ts := 10, vals := [2, 0, 0, 0, 0, 0, 0, 0, 0, 0, 0],
          running := some 0, blocked := some 0 }).2).isSome = true :=
  ⟨dtZeroSkipPolicy.1 10 10 c3Old c3New (by decide),
   dtZeroSkipPolicy.2.1 10 9 zeroNet zeroNet (by decide),
   dtZeroSkipPolicy.2.2.1 10 9 [1, 2, 3, 4, 5, 6, 7, 8] _ (by decide),
   dtZeroSkipPolicy.2.2.2.1 c3Store 10 c3New 10 c3Old (by decide) (by decide),
   dtZeroSkipPolicy.2.2.2.2.1 _ 10 [101] [9, 9, 9, 9, 9, 9, 9, 9] 10
     [1, 2, 3, 4, 5, 6, 7, 8] (by decide) (by decide),
   dtZeroSkipPolicy.2.2.2.2.2 _ _ (by decide)⟩

-- ==================== C1 ====================

/-- C1.  The claim states that every counter delta in every domain,
including CPU, saturates to 0 on regression.  The CPU jiffy deltas use
the plain subtraction operator instead: with the user counter regressing
from 10 to 5 (all other fields unchanged), the analysis CPU step does
not clamp the delta to 0 but wraps it to 2^64 - 5, and consequently
emits a metric reporting 100 percent user time.  Under the claimed
saturating semantics every delta of this pair would be 0 and no such
metric could be produced. -/
theorem cpuWrappingCounterexample :
    (5 : Nat) < 10 ∧
    wrapSub64 5 10 = 2 ^ 64 - 5 ∧
    (analyzeCpuStep
        (some { ts := 0, vals := [10, 0, 0, 0, 0, 0, 0, 0, 0, 0, 0],
                running := some 0, blocked := some 0 })
        { ts := 10, vals := [5, 0, 0, 0, 0, 0, 0, 0, 0, 0, 0],
          running := some 0, blocked := some 0 }).2
      = some { ts := 10, user := 100, sys := 0, idle := 0, iowait := 0,
               guest := 0, running := some 0, blocked := some 0 } := by
  refine ⟨by decide, by decide, ?_⟩
  have htot : cpuTotalDelta [5, 0, 0, 0, 0, 0, 0, 0, 0, 0, 0]
      [10, 0, 0, 0, 0, 0, 0, 0, 0, 0, 0] = 2 ^ 64 - 5 := by decide
  simp only [analyzeCpuStep, htot]
  norm_num [wrapSub64, CpuMetrics.mk.injEq]

/-- C1 (amended).  The saturating-subtraction policy holds for the disk
and network domains in every front end: the analysis pass (both its full
disk computation and the reduced one used by the multipath reporter, and
its net computation), disk playback and net playback.  Whenever a
counter of the current snapshot is below its prior value, the derived
delta (and hence every rate derived from it) is 0.  The CPU jiffy deltas
of both front ends use unchecked subtraction instead, which wraps modulo
2^64 in release builds (and panics in debug builds) rather than clamping
to 0. -/
theorem saturatingDeltasDiskNet :
    (∀ (last_stat stat : DiskStat) (ts dt : Nat),
      (stat.reads < last_stat.reads →
        (computeDiskMetric last_stat ts stat dt).rps = 0) ∧
      (stat.writes < last_stat.writes →
        (computeDiskMetric last_stat ts stat dt).wps = 0) ∧
      (stat.sectors_read < last_stat.sectors_read →
        (computeDiskMetric last_stat ts stat dt).rd_kbs = 0) ∧
      (stat.sectors_written < last_stat.sectors_written →
        (computeDiskMetric last_stat ts stat dt).wr_kbs = 0) ∧
      (stat.weighted_io_time_ms < last_stat.weighted_io_time_ms →
        (computeDiskMetric last_stat ts stat dt).avg_queue_depth = 0) ∧
      (stat.discards < last_stat.discards →
        (computeDiskMetric last_stat ts stat dt).discards_s = 0) ∧
      (stat.discards_merged < last_stat.discards_merged →
        (computeDiskMetric last_stat ts stat dt).discards_merged_s = 0) ∧
      (stat.sectors_discarded < last_stat.sectors_discarded →
        (computeDiskMetric last_stat ts stat dt).sectors_discarded_s = 0) ∧
      (stat.sectors_discarded < last_stat.sectors_discarded →
        (computeDiskMetric last_stat ts stat dt).discard_kbs = 0)) ∧
    (∀ (last_stat stat : DiskStat) (ts dt : Nat),
      (stat.reads < last_stat.reads →
        (computeDiskMetricSummary last_stat ts stat dt).rps = 0) ∧
      (stat.writes < last_stat.writes →
        (computeDiskMetricSummary last_stat ts stat dt).wps = 0) ∧
      (stat.sectors_read < last_stat.sectors_read →
        (computeDiskMetricSummary last_stat ts stat dt).rd_kbs = 0) ∧
      (stat.sectors_written < last_stat.sectors_written →
        (computeDiskMetricSummary last_stat ts stat dt).wr_kbs = 0) ∧
      (stat.weighted_io_time_ms < last_stat.weighted_io_time_ms →
        (computeDiskMetricSummary last_stat ts stat dt).avg_queue_depth = 0)) ∧
    (∀ (last_stat stat : DiskStat) (ts dt : Nat),
      (stat.reads < last_stat.reads →
        (computePlaybackDiskRow last_stat ts stat dt).d_reads = 0 ∧
        (computePlaybackDiskRow last_stat ts stat dt).r_s = 0) ∧
      (stat.reads_merged < last_stat.reads_merged →
        (computePlaybackDiskRow last_stat ts stat dt).d_reads_merged = 0) ∧
      (stat.writes < last_stat.writes →
        (computePlaybackDiskRow last_stat ts stat dt).d_writes = 0 ∧
        (computePlaybackDiskRow last_stat ts stat dt).w_s = 0) ∧
      (stat.writes_merged < last_stat.writes_merged →
        (computePlaybackDiskRow last_stat ts stat dt).d_writes_merged = 0) ∧
      (stat.sectors_read < last_stat.sectors_read →
        (computePlaybackDiskRow last_stat ts stat dt).rd_kbs = 0) ∧
      (stat.sectors_written < last_stat.sectors_written →
        (computePlaybackDiskRow last_stat ts stat dt).wr_kbs = 0) ∧
      (stat.weighted_io_time_ms < last_stat.weighted_io_time_ms →
        (computePlaybackDiskRow last_stat ts stat dt).avg_queue_depth = 0) ∧
      (stat.discards < last_stat.discards →
        (computePlaybackDiskRow last_stat ts stat dt).d_discards = 0) ∧
      (stat.discards_merged < last_stat.discards_merged →
        (computePlaybackDiskRow last_stat ts stat dt).d_discards_merged = 0) ∧
      (stat.sectors_discarded < last_stat.sectors_discarded →
        (computePlaybackDiskRow last_stat ts stat dt).d_sectors_discarded = 0 ∧
        (computePlaybackDiskRow last_stat ts stat dt).discard_kbs = 0)) ∧
    (∀ (last_stat stat : NetStat) (ts dt : Nat),
      (stat.rx_bytes < last_stat.rx_bytes →
        (computeNetMetric last_stat ts stat dt).rx_bytes = 0) ∧
      (stat.tx_bytes < last_stat.tx_bytes →
        (computeNetMetric last_stat ts stat dt).tx_bytes = 0) ∧
      (stat.rx_pkts < last_stat.rx_pkts →
        (computeNetMetric last_stat ts stat dt).rx_pkts = 0) ∧
      (stat.tx_pkts < last_stat.tx_pkts →
        (computeNetMetric last_stat ts stat dt).tx_pkts = 0) ∧
      (stat.rx_errs < last_stat.rx_errs →
        (computeNetMetric last_stat ts stat dt).rx_errs = 0) ∧
      (stat.tx_errs < last_stat.tx_errs →
        (computeNetMetric last_stat ts stat dt).tx_errs = 0) ∧
      (stat.rx_drop < last_stat.rx_drop →
        (computeNetMetric last_stat ts stat dt).rx_drop = 0) ∧
      (stat.tx_drop < last_stat.tx_drop →
        (computeNetMetric last_stat ts stat dt).tx_drop = 0)) ∧
    (∀ (st : NetStore) (ts : Nat) (iface vals last_vals : List Nat)
        (last_ts : Nat) (r : PlaybackNetRow),
      netStoreLookup st iface = some (last_ts, last_vals) →
      (playbackNetLine st ts iface vals).2 = some r →
      (vals.getD 0 0 < last_vals.getD 0 0 →
        r.drx_bytes = 0 ∧ r.rx_kbs = 0) ∧
      (vals.getD 1 0 < last_vals.getD 1 0 →
        r.dtx_bytes = 0 ∧ r.tx_kbs = 0) ∧
      (vals.getD 2 0 < last_vals.getD 2 0 → r.drx_packets = 0) ∧
      (vals.getD 3 0 < last_vals.getD 3 0 → r.dtx_packets = 0) ∧
      (vals.getD 4 0 < last_vals.getD 4 0 → r.drx_errs = 0) ∧
      (vals.getD 5 0 < last_vals.getD 5 0 → r.dtx_errs = 0) ∧
      (vals.getD 6 0 < last_vals.getD 6 0 → r.drx_drop = 0) ∧
      (vals.getD 7 0 < last_vals.getD 7 0 → r.dtx_drop = 0)) := by
  refine ⟨fun last_stat stat ts dt => ?_, fun last_stat stat ts dt => ?_,
    fun last_stat stat ts dt => ?_, fun last_stat stat ts dt => ?_, ?_⟩
  · refine ⟨?_, ?_, ?_, ?_, ?_, ?_, ?_, ?_, ?_⟩ <;> intro hc <;>
      simp [computeDiskMetric, satSub_eq_zero hc.le]
  · refine ⟨?_, ?_, ?_, ?_, ?_⟩ <;> intro hc <;>
      simp [computeDiskMetricSummary, satSub_eq_zero hc.le]
  · refine ⟨?_, ?_, ?_, ?_, ?_, ?_, ?_, ?_, ?_, ?_⟩ <;> intro hc <;>
      simp [computePlaybackDiskRow, satSub_eq_zero hc.le]
  · refine ⟨?_, ?_, ?_, ?_, ?_, ?_, ?_, ?_⟩ <;> intro hc <;>
      simp [computeNetMetric, satSub_eq_zero hc.le]
  · intro st ts iface vals last_vals last_ts r hl hr
    by_cases hdt : satSub ts last_ts = 0
    · simp [playbackNetLine, hl, hdt] at hr
    · simp [playbackNetLine, hl, hdt] at hr
      rw [← hr]
      refine ⟨?_, ?_, ?_, ?_, ?_, ?_, ?_, ?_⟩ <;> intro hc <;>
        · have hz := satSub_eq_zero hc.le
          simp only [List.getD_eq_getElem?_getD] at hz ⊢
          simp [hz]

/-- A disk snapshot with every counter at 10, for the C1 witness. -/
def c1High : DiskStat :=
  { major := 0, minor := 0, name := [115, 100, 97], reads := 10,
    reads_merged := 10, sectors_read := 10, read_time_ms := 10, writes := 10,
    writes_merged := 10, sectors_written := 10, write_time_ms := 10,
    io_in_progress := 10, io_time_ms := 10, weighted_io_time_ms := 10,
    discards := 10, discards_merged := 10, sectors_discarded := 10,
    discard_time_ms := 10 }

/-- A disk snapshot with every counter regressed to 5, for the C1
witness. -/
def c1Low : DiskStat :=
  { major := 0, minor := 0, name := [115, 100, 97], reads := 5,
    reads_merged := 5, sectors_read := 5, read_time_ms := 5, writes := 5,
    writes_merged := 5, sectors_written := 5, write_time_ms := 5,
    io_in_progress := 5, io_time_ms := 5, weighted_io_time_ms := 5,
    discards := 5, discards_merged := 5, sectors_discarded := 5,
    discard_time_ms := 5 }

/-- A net snapshot with every counter at 10, for the C1 witness. -/
def c1NetHigh : NetStat :=
  { rx_bytes := 10, rx_pkts := 10, rx_errs := 10, rx_drop := 10,
    tx_bytes := 10, tx_pkts := 10, tx_errs := 10, tx_drop := 10 }

/-- A net snapshot with every counter regressed to 5, for the C1
witness. -/
def c1NetLow : NetStat :=
  { rx_bytes := 5, rx_pkts := 5, rx_errs := 5, rx_drop := 5,
    tx_bytes := 5, tx_pkts := 5, tx_errs := 5, tx_drop := 5 }

/-- A net playback store holding every counter at 10 at timestamp 0,
for the C1 witness. -/
def c1NetStore : NetStore := [([101], (0, [10, 10, 10, 10, 10, 10, 10, 10]))]

/-- The row net playback emits for the all-regressed record of the C1
witness: every delta and both rates are 0. -/
def c1NetRow : PlaybackNetRow :=
  { ts := 1, drx_bytes := 0, dtx_bytes := 0, drx_packets := 0,
    dtx_packets := 0, drx_errs := 0, dtx_errs := 0, drx_drop := 0,
    dtx_drop := 0, rx_kbs := 0, tx_kbs := 0, drop_total := 0 }

/-- Closed witness for saturatingDeltasDiskNet: every counter regresses
from 10 to 5 and every derived delta and rate is 0, in all five delta
computations (analysis disk, reduced summary disk, disk playback, net
analysis, net playback). -/
theorem saturatingDeltasDiskNet_witness :
    (computeDiskMetric c1High 1 c1Low 1).rps = 0 ∧
    (computeDiskMetric c1High 1 c1Low 1).wps = 0 ∧
    (computeDiskMetric c1High 1 c1Low 1).rd_kbs = 0 ∧
    (computeDiskMetric c1High 1 c1Low 1).wr_kbs = 0 ∧
    (computeDiskMetric c1High 1 c1Low 1).avg_queue_depth = 0 ∧
    (computeDiskMetric c1High 1 c1Low 1).discards_s = 0 ∧
    (computeDiskMetric c1High 1 c1Low 1).discards_merged_s = 0 ∧
    (computeDiskMetric c1High 1 c1Low 1).sectors_discarded_s = 0 ∧
    (computeDiskMetric c1High 1 c1Low 1).discard_kbs = 0 ∧
    (computeDiskMetricSummary c1High 1 c1Low 1).rps = 0 ∧
    (computeDiskMetricSummary c1High 1 c1Low 1).wps = 0 ∧
    (computeDiskMetricSummary c1High 1 c1Low 1).rd_kbs = 0 ∧
    (computeDiskMetricSummary c1High 1 c1Low 1).wr_kbs = 0 ∧
    (computeDiskMetricSummary c1High 1 c1Low 1).avg_queue_depth = 0 ∧
    (computePlaybackDiskRow c1High 1 c1Low 1).d_reads = 0 ∧
    (computePlaybackDiskRow c1High 1 c1Low 1).r_s = 0 ∧
    (computePlaybackDiskRow c1High 1 c1Low 1).d_reads_merged = 0 ∧
    (computePlaybackDiskRow c1High 1 c1Low 1).d_writes = 0 ∧
    (computePlaybackDiskRow c1High 1 c1Low 1).w_s = 0 ∧
    (computePlaybackDiskRow c1High 1 c1Low 1).d_writes_merged = 0 ∧
    (computePlaybackDiskRow c1High 1 c1Low 1).rd_kbs = 0 ∧
    (computePlaybackDiskRow c1High 1 c1Low 1).wr_kbs = 0 ∧
    (computePlaybackDiskRow c1High 1 c1Low 1).avg_queue_depth = 0 ∧
    (computePlaybackDiskRow c1High 1 c1Low 1).d_discards = 0 ∧
    (computePlaybackDiskRow c1High 1 c1Low 1).d_discards_merged = 0 ∧
    (computePlaybackDiskRow c1High 1 c1Low 1).d_sectors_discarded = 0 ∧
    (computePlaybackDiskRow c1High 1 c1Low 1).discard_kbs = 0 ∧
    (computeNetMetric c1NetHigh 1 c1NetLow 1).rx_bytes = 0 ∧
    (computeNetMetric c1NetHigh 1 c1NetLow 1).tx_bytes = 0 ∧
    (computeNetMetric c1NetHigh 1 c1NetLow 1).rx_pkts = 0 ∧
    (computeNetMetric c1NetHigh 1 c1NetLow 1).tx_pkts = 0 ∧
    (computeNetMetric c1NetHigh 1 c1NetLow 1).rx_errs = 0 ∧
    (computeNetMetric c1NetHigh 1 c1NetLow 1).tx_errs = 0 ∧
    (computeNetMetric c1NetHigh 1 c1NetLow 1).rx_drop = 0 ∧
    (computeNetMetric c1NetHigh 1 c1NetLow 1).tx_drop = 0 ∧
    (playbackNetLine c1NetStore 1 [101] [5, 5, 5, 5, 5, 5, 5, 5]).2
      = some c1NetRow ∧
    c1NetRow.drx_bytes = 0 ∧ c1NetRow.rx_kbs = 0 ∧
    c1NetRow.dtx_bytes = 0 ∧ c1NetRow.tx_kbs = 0 ∧
    c1NetRow.drx_packets = 0 ∧ c1NetRow.dtx_packets = 0 ∧
    c1NetRow.drx_errs = 0 ∧ c1NetRow.dtx_errs = 0 ∧
    c1NetRow.drx_drop = 0 ∧ c1NetRow.dtx_drop = 0 := by
  obtain ⟨hdt, hst, hpt, hnt, hpn⟩ := saturatingDeltasDiskNet
  have hd := hdt c1High c1Low 1 1
  have hs := hst c1High c1Low 1 1
  have hp := hpt c1High c1Low 1 1
  have hn := hnt c1NetHigh c1NetLow 1 1
  have hl : netStoreLookup c1NetStore [101]
      = some (0, [10, 10, 10, 10, 10, 10, 10, 10]) := by decide
  have hpre : (playbackNetLine c1NetStore 1 [101] [5, 5, 5, 5, 5, 5, 5, 5]).2
      = some c1NetRow := by
    simp [playbackNetLine, hl, satSub, c1NetRow]
  have hr := hpn c1NetStore 1 [101] [5, 5, 5, 5, 5, 5, 5, 5]
    [10, 10, 10, 10, 10, 10, 10, 10] 0 c1NetRow hl hpre
  refine ⟨hd.1 (by decide), hd.2.1 (by decide), hd.2.2.1 (by decide),
    hd.2.2.2.1 (by decide), hd.2.2.2.2.1 (by decide),
    hd.2.2.2.2.2.1 (by decide), hd.2.2.2.2.2.2.1 (by decide),
    hd.2.2.2.2.2.2.2.1 (by decide), hd.2.2.2.2.2.2.2.2 (by decide),
    hs.1 (by decide), hs.2.1 (by decide), hs.2.2.1 (by decide),
    hs.2.2.2.1 (by decide), hs.2.2.2.2 (by decide),
    (hp.1 (by decide)).1, (hp.1 (by decide)).2, hp.2.1 (by decide),
    (hp.2.2.1 (by decide)).1, (hp.2.2.1 (by decide)).2,
    hp.2.2.2.1 (by decide), hp.2.2.2.2.1 (by decide),
    hp.2.2.2.2.2.1 (by decide), hp.2.2.2.2.2.2.1 (by decide),
    hp.2.2.2.2.2.2.2.1 (by decide), hp.2.2.2.2.2.2.2.2.1 (by decide),
    (hp.2.2.2.2.2.2.2.2.2 (by decide)).1,
    (hp.2.2.2.2.2.2.2.2.2 (by decide)).2,
    hn.1 (by decide), hn.2.1 (by decide), hn.2.2.1 (by decide),
    hn.2.2.2.1 (by decide), hn.2.2.2.2.1 (by decide),
    hn.2.2.2.2.2.1 (by decide), hn.2.2.2.2.2.2.1 (by decide),
    hn.2.2.2.2.2.2.2 (by decide), hpre,
    (hr.1 (by decide)).1, (hr.1 (by decide)).2,
    (hr.2.1 (by decide)).1, (hr.2.1 (by decide)).2,
    hr.2.2.1 (by decide), hr.2.2.2.1 (by decide),
    hr.2.2.2.2.1 (by decide), hr.2.2.2.2.2.1 (by decide),
    hr.2.2.2.2.2.2.1 (by decide), hr.2.2.2.2.2.2.2 (by decide)⟩

-- ==================== C6 ====================

/-- C6.  The claim states that CPU percentages divide by the total delta
over exactly the time-accounting jiffy fields (user..steal plus guest),
with the running and blocked gauges excluded, and that User% folds nice
into user.  In the analysis pass the denominator instead sums the deltas
of every parsed field of the record, gauges included: with the user
jiffies advancing by 10 and the running gauge also advancing by 10, the
emitted User% is 50, while the specified formula (jiffy fields only)
gives 100. -/
theorem cpuDenominatorCounterexample :
    ((analyzeCpuStep
        (some { ts := 0, vals := [100, 0, 0, 0, 0, 0, 0, 0, 0, 5, 0],
                running := some 5, blocked := some 0 })
        { ts := 10, vals := [110, 0, 0, 0, 0, 0, 0, 0, 0, 15, 0],
          running := some 15, blocked := some 0 }).2.map CpuMetrics.user)
      = some 50 ∧
    specCpuUserPercent [100, 0, 0, 0, 0, 0, 0, 0, 0, 5, 0]
        [110, 0, 0, 0, 0, 0, 0, 0, 0, 15, 0] = 100 ∧
    (50 : ℚ) ≠ 100 := by
  refine ⟨?_, ?_, by norm_num⟩
  · have htot : cpuTotalDelta [110, 0, 0, 0, 0, 0, 0, 0, 0, 15, 0]
        [100, 0, 0, 0, 0, 0, 0, 0, 0, 5, 0] = 20 := by decide
    simp only [analyzeCpuStep, htot]
    norm_num [wrapSub64]
  · have h9 : ((List.range 9).map
        (fun i => satSub ([110, 0, 0, 0, 0, 0, 0, 0, 0, 15, 0].getD i 0)
          ([100, 0, 0, 0, 0, 0, 0, 0, 0, 5, 0].getD i 0))).sum = 10 := by decide
    simp only [specCpuUserPercent, h9]
    norm_num [satSub]

/-- C6 (amended).  In CPU playback the denominator is the plain delta
sum of the eight jiffy fields user..steal plus the guest delta, with the
running and blocked gauges excluded, and the User and Nice percentages
are reported separately (nice is not folded into user).  In the analysis
pass User% does fold nice into user, but the denominator is the delta
sum of every parsed field of the record, including the trailing running
and blocked gauges. -/
theorem cpuPercentFormulas :
    (∀ (lt lg : Nat) (lv : List Nat) (rec : PlayCpuRec) (r : PlaybackCpuRow),
      (playbackCpuStep (some (lt, lv, lg)) rec).2 = some r →
      r.user = (wrapSub64 (rec.vals.getD 0 0) (lv.getD 0 0) : ℚ)
          * (100 / ((wrapAdd64 ((List.zipWith wrapSub64 rec.vals lv).foldl wrapAdd64 0)
              (wrapSub64 rec.guest lg) : Nat) : ℚ)) ∧
      r.nice = (wrapSub64 (rec.vals.getD 1 0) (lv.getD 1 0) : ℚ)
          * (100 / ((wrapAdd64 ((List.zipWith wrapSub64 rec.vals lv).foldl wrapAdd64 0)
              (wrapSub64 rec.guest lg) : Nat) : ℚ))) ∧
    (∀ (last row : CpuRow) (m : CpuMetrics),
      (analyzeCpuStep (some last) row).2 = some m →
      m.user = (wrapSub64 (row.vals.getD 0 0) (last.vals.getD 0 0) : ℚ)
            / ((cpuTotalDelta row.vals last.vals : Nat) : ℚ) * 100
          + (wrapSub64 (row.vals.getD 1 0) (last.vals.getD 1 0) : ℚ)
            / ((cpuTotalDelta row.vals last.vals : Nat) : ℚ) * 100) := by
  constructor
  · intro lt lg lv rec r h
    by_cases hdt : satSub rec.ts lt = 0
    · simp [playbackCpuStep, hdt] at h
    · by_cases htot : wrapAdd64 ((List.zipWith wrapSub64 rec.vals lv).foldl wrapAdd64 0)
          (wrapSub64 rec.guest lg) = 0
      · simp [playbackCpuStep, hdt, htot] at h
      · simp [playbackCpuStep, hdt, htot] at h
        rw [← h]
        constructor <;> simp [List.getD_eq_getElem?_getD]
  · intro last row m h
    by_cases htot : cpuTotalDelta row.vals last.vals = 0
    · simp [analyzeCpuStep, htot] at h
    · simp [analyzeCpuStep, htot] at h
      rw [← h]
      simp [List.getD_eq_getElem?_getD]

/-- Closed witness for cpuPercentFormulas: user jiffies advance by 10
against a denominator of 10 in playback (User% is 100 with Nice% 0,
unfolded), and by 10 against an all-fields denominator of 20 in
analysis. -/
theorem cpuPercentFormulas_witness :
    (playbackCpuStep (some (0, [0, 0, 0, 0, 0, 0, 0, 0], 0))
        { ts := 10, vals := [10, 0, 0, 0, 0, 0, 0, 0], guest := 0,
          running := some 5, blocked := some 0 }).2
      = some { ts := 10, dt := 10, user := 100, nice := 0, sys := 0,
               idle := 0, iowait := 0, guest := 0, running := some 5,
               blocked := some 0 } ∧
    ({ ts := 10, dt := 10, user := 100, nice := 0, sys := 0, idle := 0,
       iowait := 0, guest := 0, running := some 5,
       blocked := some 0 } : PlaybackCpuRow).user
      = (wrapSub64 10 0 : ℚ)
          * (100 / ((wrapAdd64 ((List.zipWith wrapSub64
              [10, 0, 0, 0, 0, 0, 0, 0] [0, 0, 0, 0, 0, 0, 0, 0]).foldl wrapAdd64 0)
              (wrapSub64 0 0) : Nat) : ℚ)) := by
  have hpre : (playbackCpuStep (some (0, [0, 0, 0, 0, 0, 0, 0, 0], 0))
      { ts := 10, vals := [10, 0, 0, 0, 0, 0, 0, 0], guest := 0,
        running := some 5, blocked := some 0 }).2
      = some { ts := 10, dt := 10, user := 100, nice := 0, sys := 0,
               idle := 0, iowait := 0, guest := 0, running := some 5,
               blocked := some 0 } := by
    have hdt : satSub 10 0 = 10 := by decide
    have htot : wrapAdd64 ((List.zipWith wrapSub64
        [10, 0, 0, 0, 0, 0, 0, 0] [0, 0, 0, 0, 0, 0, 0, 0]).foldl wrapAdd64 0)
        (wrapSub64 0 0) = 10 := by decide
    simp only [playbackCpuStep, hdt, htot]
    norm_num [wrapSub64, satSub, PlaybackCpuRow.mk.injEq]
  exact ⟨hpre, (cpuPercentFormulas.1 0 0 [0, 0, 0, 0, 0, 0, 0, 0] _ _ hpre).1⟩

-- ==================== C4 ====================

/-- The active-path filter of report_mpath_stats: a path is kept when
its mean IOPS or its mean KB/s is positive. -/
def isActivePath (dm : List (List Nat × List IntervalDiskMetrics))
    (p : List Nat) : Bool :=
  decide ((pathAverages dm p).1 > 0 ∨ (pathAverages dm p).2 > 0)

theorem mpathGroupStats_go (dm : List (List Nat × List IntervalDiskMetrics))
    (paths : List (List Nat)) (acc : List (List Nat × ℚ × ℚ) × ℚ × ℚ) :
    paths.foldl
      (fun acc path =>
        let avgs := pathAverages dm path
        if avgs.1 > 0 ∨ avgs.2 > 0 then
          (acc.1 ++ [(path, avgs.1, avgs.2)], acc.2.1 + avgs.1, acc.2.2 + avgs.2)
        else acc) acc =
      (acc.1 ++ (paths.filter (isActivePath dm)).map
          (fun p => (p, (pathAverages dm p).1, (pathAverages dm p).2)),
       acc.2.1 + ((paths.filter (isActivePath dm)).map
          (fun p => (pathAverages dm p).1)).sum,
       acc.2.2 + ((paths.filter (isActivePath dm)).map
          (fun p => (pathAverages dm p).2)).sum) := by
  induction paths generalizing acc with
  | nil => simp
  | cons p ps ih =>
    by_cases hp : (pathAverages dm p).1 > 0 ∨ (pathAverages dm p).2 > 0
    · simp only [List.foldl_cons, hp, if_pos, List.filter_cons,
        isActivePath, decide_eq_true hp]
      rw [ih]
      simp [add_assoc, isActivePath]
    · simp only [List.foldl_cons, hp, if_neg, List.filter_cons,
        isActivePath, decide_eq_false hp]
      rw [ih]
      simp [isActivePath]

theorem mpathGroupStats_eq (dm : List (List Nat × List IntervalDiskMetrics))
    (paths : List (List Nat)) :
    mpathGroupStats dm paths =
      ((paths.filter (isActivePath dm)).map
          (fun p => (p, (pathAverages dm p).1, (pathAverages dm p).2)),
       ((paths.filter (isActivePath dm)).map
          (fun p => (pathAverages dm p).1)).sum,
       ((paths.filter (isActivePath dm)).map
          (fun p => (pathAverages dm p).2)).sum) := by
  unfold mpathGroupStats
  rw [mpathGroupStats_go]
  simp

/-- The metrics map of the C4 scenario: device sda averages 100 IOPS
over its series, device sdb averages 0. -/
def c4dm : List (List Nat × List IntervalDiskMetrics) :=
  [([115, 100, 97], [{ zeroMetric with rps := 100 }]),
   ([115, 100, 98], [zeroMetric])]

/-- The group paths of the C4 scenario: sda then sdb. -/
def c4paths : List (List Nat) := [[115, 100, 97], [115, 100, 98]]

/-- C4.  The claim states that in the two-path scenario (means 100 IOPS
and 0 IOPS) the report includes the zero-activity path row with a 0%
share.  The code filters inactive paths out before reporting: the
reported group holds the total 100 IOPS and exactly one path row (sda at
a 100% share); no row for sdb appears at all. -/
theorem mpathZeroPathCounterexample :
    reportMpathGroup c4dm c4paths
      = some (100, 0, [([115, 100, 97], 100, 0, 100, 0)]) := by
  have hA : pathAverages c4dm [115, 100, 97] = (100, 0) := by
    have hl : List.lookup [115, 100, 97] c4dm
        = some [{ zeroMetric with rps := 100 }] := by decide
    simp [pathAverages, hl, pathAvgIops, pathAvgKbs, zeroMetric]
  have hB : pathAverages c4dm [115, 100, 98] = (0, 0) := by
    have hl : List.lookup [115, 100, 98] c4dm = some [zeroMetric] := by decide
    simp [pathAverages, hl, pathAvgIops, pathAvgKbs, zeroMetric]
  have hs : mpathGroupStats c4dm c4paths
      = ([([115, 100, 97], 100, 0)], 100, 0) := by
    unfold mpathGroupStats c4paths
    simp only [List.foldl_cons, List.foldl_nil, hA, hB]
    norm_num
  simp only [reportMpathGroup, hs]
  norm_num

/-- C4 (amended).  For a multipath group, each listed path with positive
mean IOPS or mean KB/s contributes one row carrying its series means;
paths whose both means are 0 are omitted from the rows (and from the
sums).  The device totals are the sums of the included rows, each
share of each included row is 100 times its mean over the group total (0 when
that total is not positive), and the group is reported at all exactly
when at least one path is active. -/
theorem mpathAggregation (dm : List (List Nat × List IntervalDiskMetrics))
    (paths : List (List Nat)) :
    (mpathGroupStats dm paths).1
        = (paths.filter (isActivePath dm)).map
            (fun p => (p, (pathAverages dm p).1, (pathAverages dm p).2)) ∧
    (mpathGroupStats dm paths).2.1
        = ((mpathGroupStats dm paths).1.map (fun r => r.2.1)).sum ∧
    (mpathGroupStats dm paths).2.2
        = ((mpathGroupStats dm paths).1.map (fun r => r.2.2)).sum ∧
    (reportMpathGroup dm paths = none
        ↔ ∀ p ∈ paths, ¬((pathAverages dm p).1 > 0 ∨ (pathAverages dm p).2 > 0)) ∧
    (∀ g, reportMpathGroup dm paths = some g →
      g.1 = (mpathGroupStats dm paths).2.1 ∧
      g.2.1 = (mpathGroupStats dm paths).2.2 ∧
      g.2.2 = (mpathGroupStats dm paths).1.map (fun r =>
        (r.1, r.2.1, r.2.2,
         if (mpathGroupStats dm paths).2.1 > 0 then
           100 * r.2.1 / (mpathGroupStats dm paths).2.1 else 0,
         if (mpathGroupStats dm paths).2.2 > 0 then
           100 * r.2.2 / (mpathGroupStats dm paths).2.2 else 0))) := by
  refine ⟨?_, ?_, ?_, ?_, ?_⟩
  · rw [mpathGroupStats_eq]
  · rw [mpathGroupStats_eq]
    simp [List.map_map, Function.comp_def]
  · rw [mpathGroupStats_eq]
    simp [List.map_map, Function.comp_def]
  · unfold reportMpathGroup
    rw [mpathGroupStats_eq]
    simp only []
    constructor
    · intro h
      by_cases he : (paths.filter (isActivePath dm)).map
          (fun p => (p, (pathAverages dm p).1, (pathAverages dm p).2)) = []
      · intro p hp hact
        rw [List.map_eq_nil_iff, List.filter_eq_nil_iff] at he
        have hf := he p hp
        simp [isActivePath, hact] at hf
      · rw [if_neg he] at h
        exact absurd h (by simp)
    · intro h
      have he : paths.filter (isActivePath dm) = [] := by
        rw [List.filter_eq_nil_iff]
        intro p hp
        simp [isActivePath, h p hp]
      rw [he]
      simp
  · intro g hg
    unfold reportMpathGroup at hg
    by_cases he : (mpathGroupStats dm paths).1 = []
    · simp [he] at hg
    · simp only [he, ite_false] at hg
      have hx := Option.some.inj hg
      rw [← hx]
      exact ⟨rfl, rfl, rfl⟩

/-- Closed witness for mpathAggregation at the C4 scenario, discharging
the reported-group hypothesis at the concrete group value. -/
theorem mpathAggregation_witness :
    (mpathGroupStats c4dm c4paths).1
        = (c4paths.filter (isActivePath c4dm)).map
            (fun p => (p, (pathAverages c4dm p).1, (pathAverages c4dm p).2)) ∧
    ((100 : ℚ), (0 : ℚ), [([115, 100, 97], (100 : ℚ), (0 : ℚ), (100 : ℚ), (0 : ℚ))]).1
        = (mpathGroupStats c4dm c4paths).2.1 := by
  have hA : pathAverages c4dm [115, 100, 97] = (100, 0) := by
    have hl : List.lookup [115, 100, 97] c4dm
        = some [{ zeroMetric with rps := 100 }] := by decide
    simp [pathAverages, hl, pathAvgIops, pathAvgKbs, zeroMetric]
  have hB : pathAverages c4dm [115, 100, 98] = (0, 0) := by
    have hl : List.lookup [115, 100, 98] c4dm = some [zeroMetric] := by decide
    simp [pathAverages, hl, pathAvgIops, pathAvgKbs, zeroMetric]
  have hs : mpathGroupStats c4dm c4paths
      = ([([115, 100, 97], 100, 0)], 100, 0) := by
    unfold mpathGroupStats c4paths
    simp only [List.foldl_cons, List.foldl_nil, hA, hB]
    norm_num
  have hg : reportMpathGroup c4dm c4paths
      = some (100, 0, [([115, 100, 97], 100, 0, 100, 0)]) := by
    simp only [reportMpathGroup, hs]
    norm_num
  refine ⟨(mpathAggregation c4dm c4paths).1, ?_⟩
  have h5 := (mpathAggregation c4dm c4paths).2.2.2.2 _ hg
  exact h5.1

-- ==================== C8 ====================

theorem parseNatCore_formatNat (n : Nat) : parseNatCore (formatNat n) = some n := by
  rcases Nat.eq_zero_or_pos n with h | h
  · subst h; decide
  · have hne : Nat.digits 10 n ≠ [] := Nat.digits_ne_nil_iff_ne_zero.mpr h.ne'
    have hfmt : formatNat n = ((Nat.digits 10 n).reverse).map (· + 48) := by
      unfold formatNat
      rw [if_neg h.ne']
    rw [hfmt]
    unfold parseNatCore
    rw [if_pos]
    · congr 1
      rw [List.map_map]
      have hid : ((Nat.digits 10 n).reverse).map ((fun c => c - 48) ∘ (fun d => d + 48))
          = (Nat.digits 10 n).reverse := by
        apply List.map_congr_left ?_ |>.trans (List.map_id _)
        intro d _
        simp
      rw [hid, List.reverse_reverse, Nat.ofDigits_digits]
    · constructor
      · simp [hne]
      · intro c hc
        rcases List.mem_map.mp hc with ⟨d, hd, rfl⟩
        have hlt : d < 10 := Nat.digits_lt_base (by norm_num) (List.mem_reverse.mp hd)
        unfold isDigitCode
        omega

theorem parseU64_formatNat {n : Nat} (h : n < 2 ^ 64) :
    parseU64 (formatNat n) = some n := by
  have h' := h
  norm_num at h'
  simp [parseU64, parseNatCore_formatNat, h']

theorem parseU32_formatNat {n : Nat} (h : n < 2 ^ 32) :
    parseU32 (formatNat n) = some n := by
  have h' := h
  norm_num at h'
  simp [parseU32, parseNatCore_formatNat, h']

/-- C8.  Round trip of the persisted capture format at the record level:
for every well-formed disk snapshot, writing its fields in decimal with
the capture writer and re-parsing them with the shared CSV disk parser
reproduces the snapshot exactly, every counter bit for bit. -/
theorem diskRoundTrip (s : DiskStat) (h : s.WF) :
    parse_disk_from_fields (gatherDiskFields s) = some s := by
  obtain ⟨h1, h2, h3, h4, h5, h6, h7, h8, h9, h10, h11, h12, h13, h14, h15,
    h16, h17, -⟩ := h
  unfold gatherDiskFields parse_disk_from_fields
  rw [if_neg (by simp)]
  simp only [List.getD_cons_zero, List.getD_cons_succ]
  rw [parseU32_formatNat h1, parseU32_formatNat h2, parseU64_formatNat h3,
    parseU64_formatNat h4, parseU64_formatNat h5, parseU64_formatNat h6,
    parseU64_formatNat h7, parseU64_formatNat h8, parseU64_formatNat h9,
    parseU64_formatNat h10, parseU64_formatNat h11, parseU64_formatNat h12,
    parseU64_formatNat h13, parseU64_formatNat h14, parseU64_formatNat h15,
    parseU64_formatNat h16, parseU64_formatNat h17]
  rfl

/-- Closed witness for diskRoundTrip at a concrete snapshot. -/
theorem diskRoundTrip_witness :
    ({ zeroDisk with reads := 1234567890123, writes := 42 } : DiskStat).WF ∧
    parse_disk_from_fields
        (gatherDiskFields { zeroDisk with reads := 1234567890123, writes := 42 })
      = some { zeroDisk with reads := 1234567890123, writes := 42 } :=
  ⟨by decide, diskRoundTrip _ (by decide)⟩

-- ==================== C9 ====================

theorem foldl_max_init_le (l : List ℚ) (a : ℚ) : a ≤ l.foldl Max.max a := by
  induction l generalizing a with
  | nil => exact le_refl a
  | cons x xs ih =>
    rw [List.foldl_cons]
    exact le_trans (le_max_left a x) (ih (Max.max a x))

theorem foldl_max_le_of_mem {l : List ℚ} {x : ℚ} (h : x ∈ l) (a : ℚ) :
    x ≤ l.foldl Max.max a := by
  induction l generalizing a with
  | nil => cases h
  | cons y ys ih =>
    rw [List.foldl_cons]
    rcases List.mem_cons.mp h with rfl | hm
    · exact le_trans (le_max_right a x) (foldl_max_init_le ys (Max.max a x))
    · exact ih hm (Max.max a y)

theorem foldl_max_mem (l : List ℚ) (a : ℚ) :
    l.foldl Max.max a = a ∨ l.foldl Max.max a ∈ l := by
  induction l generalizing a with
  | nil => left; rfl
  | cons x xs ih =>
    rw [List.foldl_cons]
    rcases ih (Max.max a x) with h | h
    · rcases max_choice a x with hx | hx
      · left; rw [h, hx]
      · right; rw [h, hx]; exact List.mem_cons_self x xs
    · right; exact List.mem_cons_of_mem x h

theorem rankingSorted (entries : List SummaryEntry)
    (key : SummaryEntry → ℚ) :
    List.Pairwise (fun a b => key b ≤ key a)
      (entries.mergeSort (fun a b => decide (key b ≤ key a))) := by
  have hs := @List.sorted_mergeSort SummaryEntry
    (fun a b : SummaryEntry => decide (key b ≤ key a))
    (fun a b c hab hbc => by
      simp only [decide_eq_true_eq] at *
      exact le_trans hbc hab)
    (fun a b => by
      simp only [Bool.or_eq_true, decide_eq_true_eq]
      exact le_total (key b) (key a))
    entries
  exact hs.imp (fun h => by simpa using h)

/-- C9.  The summarizer facts: every device of the metrics map
contributes its series mean and series maximum of the chosen accessor;
the mean of a nonempty series is its sum over its length (0 for an empty
series); the peak bounds every accessor value and, on a nonempty series
of nonnegative values, is attained by some element; each of the two
rankings is descending in its key (mean and peak respectively), at most
50 rows long, and draws its rows from the summary entries. -/
theorem summarizerTopFifty (dm : List (List Nat × List IntervalDiskMetrics))
    (f : IntervalDiskMetrics → ℚ) (entries : List SummaryEntry) :
    (∀ p ∈ dm, ((p.1, mean p.2 f, maxPeak p.2 f) : SummaryEntry)
        ∈ metricsSummary dm f) ∧
    (∀ data : List IntervalDiskMetrics, data ≠ [] →
      mean data f = (data.map f).sum / (data.length : ℚ)) ∧
    mean [] f = 0 ∧
    (∀ (data : List IntervalDiskMetrics) (m : IntervalDiskMetrics),
      m ∈ data → f m ≤ maxPeak data f) ∧
    (∀ data : List IntervalDiskMetrics, data ≠ [] →
      (∀ m ∈ data, 0 ≤ f m) → maxPeak data f ∈ data.map f) ∧
    (top50ByAvg entries).length ≤ 50 ∧
    (top50ByPeak entries).length ≤ 50 ∧
    (∀ e ∈ top50ByAvg entries, e ∈ entries) ∧
    (∀ e ∈ top50ByPeak entries, e ∈ entries) ∧
    List.Pairwise (fun a b => b.2.1 ≤ a.2.1) (top50ByAvg entries) ∧
    List.Pairwise (fun a b => b.2.2 ≤ a.2.2) (top50ByPeak entries) := by
  refine ⟨?_, ?_, rfl, ?_, ?_, ?_, ?_, ?_, ?_, ?_, ?_⟩
  · intro p hp
    exact List.mem_map.mpr ⟨p, hp, rfl⟩
  · intro data hd
    have hl : (data.length : ℚ) ≠ 0 := by
      simpa [List.length_eq_zero] using hd
    simp [mean, hl]
  · intro data m hm
    exact foldl_max_le_of_mem (List.mem_map.mpr ⟨m, hm, rfl⟩) 0
  · intro data hd hnn
    rcases foldl_max_mem (data.map f) 0 with h | h
    · rcases List.exists_mem_of_ne_nil data hd with ⟨m, hm⟩
      have h1 : f m ≤ 0 := by
        rw [← h]
        exact foldl_max_le_of_mem (List.mem_map.mpr ⟨m, hm, rfl⟩) 0
      have h2 : f m = 0 := le_antisymm h1 (hnn m hm)
      unfold maxPeak
      rw [h, ← h2]
      exact List.mem_map.mpr ⟨m, hm, rfl⟩
    · exact h
  · exact List.length_take_le 50 _
  · exact List.length_take_le 50 _
  · intro e he
    have h1 : e ∈ entries.mergeSort (fun a b => decide (b.2.1 ≤ a.2.1)) :=
      (List.take_sublist 50 _).mem he
    exact (List.mergeSort_perm entries _).mem_iff.mp h1
  · intro e he
    have h1 : e ∈ entries.mergeSort (fun a b => decide (b.2.2 ≤ a.2.2)) :=
      (List.take_sublist 50 _).mem he
    exact (List.mergeSort_perm entries _).mem_iff.mp h1
  · exact ((rankingSorted entries (fun e => e.2.1)).sublist
      (List.take_sublist 50 _))
  · exact ((rankingSorted entries (fun e => e.2.2)).sublist
      (List.take_sublist 50 _))

/-- Closed witness for summarizerTopFifty at a concrete map and ranking
input. -/
theorem summarizerTopFifty_witness :
    (([97], mean [zeroMetric] IntervalDiskMetrics.rps,
        maxPeak [zeroMetric] IntervalDiskMetrics.rps) : SummaryEntry)
      ∈ metricsSummary [([97], [zeroMetric])] IntervalDiskMetrics.rps ∧
    mean [zeroMetric] IntervalDiskMetrics.rps
      = ([zeroMetric].map IntervalDiskMetrics.rps).sum / (([zeroMetric].length : Nat) : ℚ) ∧
    IntervalDiskMetrics.rps zeroMetric
      ≤ maxPeak [zeroMetric] IntervalDiskMetrics.rps ∧
    maxPeak [zeroMetric] IntervalDiskMetrics.rps
      ∈ [zeroMetric].map IntervalDiskMetrics.rps ∧
    (top50ByAvg [([97], 1, 2), ([98], 3, 4)]).length ≤ 50 ∧
    List.Pairwise (fun a b => b.2.1 ≤ a.2.1)
      (top50ByAvg [([97], 1, 2), ([98], 3, 4)]) := by
  have h := summarizerTopFifty [([97], [zeroMetric])] IntervalDiskMetrics.rps
    [([97], 1, 2), ([98], 3, 4)]
  exact ⟨h.1 ([97], [zeroMetric]) (by simp), h.2.1 _ (by simp),
    h.2.2.2.1 _ _ (by simp),
    h.2.2.2.2.1 _ (by simp) (fun m hm => by
      simp only [List.mem_singleton] at hm
      rw [hm]
      exact le_refl 0),
    h.2.2.2.2.2.1, h.2.2.2.2.2.2.2.2.2.1⟩

-- ==================== C10 ====================

theorem metricsMap_mem_iff {ρ μ : Type} [DecidableEq μ] (g : ρ → List μ)
    (pd : List (List Nat × ρ)) (dev : List Nat) (out : List μ) :
    ((dev, out) ∈ pd.foldr
        (fun p acc => if g p.2 = [] then acc else (p.1, g p.2) :: acc) []) ↔
      ∃ rows, (dev, rows) ∈ pd ∧ g rows = out ∧ out ≠ [] := by
  induction pd with
  | nil => simp
  | cons p ps ih =>
    simp only [List.foldr_cons]
    by_cases hp : g p.2 = []
    · rw [if_pos hp, ih]
      constructor
      · rintro ⟨rows, hm, hg, hne⟩
        exact ⟨rows, List.mem_cons_of_mem p hm, hg, hne⟩
      · rintro ⟨rows, hm, hg, hne⟩
        rcases List.mem_cons.mp hm with he | hm2
        · exfalso
          apply hne
          have hr : rows = p.2 := congrArg Prod.snd he
          rw [← hg, hr, hp]
        · exact ⟨rows, hm2, hg, hne⟩
    · rw [if_neg hp]
      constructor
      · intro hm
        rcases List.mem_cons.mp hm with he | hm2
        · have hd : dev = p.1 := congrArg Prod.fst he
          have ho : out = g p.2 := congrArg Prod.snd he
          refine ⟨p.2, ?_, ho.symm, by rw [ho]; exact hp⟩
          rw [hd]
          exact List.mem_cons_self _ _
        · rcases ih.mp hm2 with ⟨rows, hm3, hg, hne⟩
          exact ⟨rows, List.mem_cons_of_mem p hm3, hg, hne⟩
      · rintro ⟨rows, hm, hg, hne⟩
        rcases List.mem_cons.mp hm with he | hm2
        · have hd : dev = p.1 := congrArg Prod.fst he
          have hr : rows = p.2 := congrArg Prod.snd he
          have ho : out = g p.2 := by rw [← hg, hr]
          rw [hd, ho]
          exact List.mem_cons_self _ _
        · exact List.mem_cons_of_mem _ (ih.mpr ⟨rows, hm2, hg, hne⟩)

theorem nodup_key_eq {α β : Type} {l : List (α × β)}
    (h : (l.map Prod.fst).Nodup) {a : α} {b c : β}
    (h1 : (a, b) ∈ l) (h2 : (a, c) ∈ l) : b = c := by
  induction l with
  | nil => cases h1
  | cons p ps ih =>
    simp only [List.map_cons, List.nodup_cons] at h
    rcases List.mem_cons.mp h1 with e1 | m1 <;>
      rcases List.mem_cons.mp h2 with e2 | m2
    · have hb : b = p.2 := congrArg Prod.snd e1
      have hc : c = p.2 := congrArg Prod.snd e2
      rw [hb, hc]
    · exfalso
      apply h.1
      have ha : p.1 = a := (congrArg Prod.fst e1).symm
      rw [ha]
      exact List.mem_map.mpr ⟨(a, c), m2, rfl⟩
    · exfalso
      apply h.1
      have ha : p.1 = a := (congrArg Prod.fst e2).symm
      rw [ha]
      exact List.mem_map.mpr ⟨(a, b), m1, rfl⟩
    · exact ih h.2 m1 m2

theorem diskIntervals_short (rows : List (Nat × DiskStat))
    (h : rows.length ≤ 1) : diskIntervals rows = [] := by
  match rows with
  | [] => rfl
  | [(ts, s)] => rfl
  | (a :: b :: rest) => simp at h

theorem netIntervals_short (rows : List (Nat × NetStat))
    (h : rows.length ≤ 1) : netIntervals rows = [] := by
  match rows with
  | [] => rfl
  | [(ts, s)] => rfl
  | (a :: b :: rest) => simp at h

/-- C10.  Presence in the per-device (and per-interface) metrics maps of
the analysis pass: a key holds a series exactly when that series is the
nonempty interval list computed from its rows, so every stored series is
nonempty; an entity with at most one parsed snapshot yields an empty
interval list, and (with the distinct keys a HashMap guarantees) such an
entity is absent from the disk metrics map, hence from the dashboard
device list drawn from its keys. -/
theorem metricsMapPresence :
    (∀ (pd : List (List Nat × List (Nat × DiskStat))) (dev : List Nat)
        (out : List IntervalDiskMetrics),
      (dev, out) ∈ diskMetricsMap pd
        ↔ ∃ rows, (dev, rows) ∈ pd ∧ diskIntervals rows = out ∧ out ≠ []) ∧
    (∀ (pn : List (List Nat × List (Nat × NetStat))) (dev : List Nat)
        (out : List IntervalNetMetrics),
      (dev, out) ∈ netMetricsMap pn
        ↔ ∃ rows, (dev, rows) ∈ pn ∧ netIntervals rows = out ∧ out ≠ []) ∧
    (∀ rows : List (Nat × DiskStat), rows.length ≤ 1 →
      diskIntervals rows = []) ∧
    (∀ rows : List (Nat × NetStat), rows.length ≤ 1 →
      netIntervals rows = []) ∧
    (∀ (pd : List (List Nat × List (Nat × DiskStat))) (dev : List Nat)
        (rows : List (Nat × DiskStat)),
      (pd.map Prod.fst).Nodup → (dev, rows) ∈ pd → rows.length ≤ 1 →
      ∀ out, (dev, out) ∉ diskMetricsMap pd) := by
  refine ⟨?_, ?_, diskIntervals_short, netIntervals_short, ?_⟩
  · intro pd dev out
    exact metricsMap_mem_iff diskIntervals pd dev out
  · intro pn dev out
    exact metricsMap_mem_iff netIntervals pn dev out
  · intro pd dev rows hnd hm hlen out hmem
    rcases (metricsMap_mem_iff diskIntervals pd dev out).mp hmem
      with ⟨rows', hm', hg, hne⟩
    have : rows' = rows := nodup_key_eq hnd hm' hm
    rw [this, diskIntervals_short rows hlen] at hg
    exact hne hg.symm

/-- Closed witness for metricsMapPresence: a device with two snapshots
five seconds apart is present with a nonempty series, and a device with
a single snapshot is absent from the map. -/
theorem metricsMapPresence_witness :
    (([97], diskIntervals [(0, zeroDisk), (5, zeroDisk)])
        ∈ diskMetricsMap [([97], [(0, zeroDisk), (5, zeroDisk)])]
      ↔ ∃ rows, ([97], rows) ∈ [([97], [(0, zeroDisk), (5, zeroDisk)])]
          ∧ diskIntervals rows = diskIntervals [(0, zeroDisk), (5, zeroDisk)]
          ∧ diskIntervals [(0, zeroDisk), (5, zeroDisk)] ≠ []) ∧
    diskIntervals [(0, zeroDisk)] = [] ∧
    netIntervals [(0, zeroNet)] = [] ∧
    ∀ out, ([97], out) ∉ diskMetricsMap [([97], [(0, zeroDisk)])] :=
  ⟨metricsMapPresence.1 _ [97] _,
   metricsMapPresence.2.2.1 [(0, zeroDisk)] (by decide),
   metricsMapPresence.2.2.2.1 [(0, zeroNet)] (by decide),
   metricsMapPresence.2.2.2.2 [([97], [(0, zeroDisk)])] [97] [(0, zeroDisk)]
     (by decide) (by decide) (by decide)⟩

end ServerStats
